import Mathlib

/-!
LongRangeRadarSensor: tick-synchronised radar callback.

Shallow embedding of `LibCarla/source/carla/client/LongRangeRadarSensor.cpp` and
`LibCarla/source/carla/sensor/data/LongRangeRadarEvent.h`.

* The measurement code (`Rotate`, `RadarCallback::Tick`) is written once for an arbitrary
  scalar type `F` carrying the `<cmath>` primitives it calls; the numeric statements are
  proved for `F = ℝ`.
* Exceptions are explicit: a user callback returns the object it throws, if any.
* The sensor life cycle (`Listen`, `Stop`, the destructor) is explicit state passing over the
  sensor's `_callback_id` and the tick source (the episode).
-/

namespace carla

/-- The `<cmath>` primitives and the constant `geom::Math::Pi` used by the sensor code. -/
class CMath (F : Type) where
  /-- The function `std::sqrt`. -/
  sqrt : F → F
  /-- The function `std::atan2`, called as `atan2 y x`. -/
  atan2 : F → F → F
  /-- The function `std::cos`. -/
  cos : F → F
  /-- The function `std::sin`. -/
  sin : F → F
  /-- The constant `geom::Math::Pi`. -/
  pi : F

/-- Real-number reading of the `<cmath>` primitives: `atan2 y x` is the argument of `x + iy`,
which is `0` at the origin and lies in `(-π, π]`. -/
noncomputable instance instCMathReal : CMath ℝ where
  sqrt := Real.sqrt
  atan2 := fun y x => Complex.arg ⟨x, y⟩
  cos := Real.cos
  sin := Real.sin
  pi := Real.pi

/-- The type `rpc::ActorId`. -/
abbrev ActorId := Nat

namespace geom

/-- The class `geom::Vector3D`: three scalar coordinates. -/
structure Vector3D (F : Type) where
  x : F
  y : F
  z : F

/-- A `geom::Location` is a `Vector3D` used as a point. -/
abbrev Location (F : Type) := Vector3D F

/-- The class `geom::Rotation`, angles in degrees. -/
structure Rotation (F : Type) where
  pitch : F
  yaw : F
  roll : F

/-- The class `geom::Transform`. -/
structure Transform (F : Type) where
  location : Location F
  rotation : Rotation F

variable {F : Type}

/-- Modelled from the spec: `operator-` of `geom::Location` (carla/geom/Location.h is not part
of the sources at hand), the coordinate-wise difference "object location − parent location". -/
def Vector3D.sub [Sub F] (a b : Vector3D F) : Vector3D F :=
  { x := a.x - b.x, y := a.y - b.y, z := a.z - b.z }

instance instSubVector3D [Sub F] : Sub (Vector3D F) := ⟨Vector3D.sub⟩

/-- Modelled from the spec: `Vector3D::Length` (carla/geom/Vector3D.h is not part of the
sources at hand), the Euclidean length ("magnitude") of the vector. -/
def Vector3D.Length [Add F] [Mul F] [CMath F] (v : Vector3D F) : F :=
  CMath.sqrt (v.x * v.x + v.y * v.y + v.z * v.z)

end geom

/-- Read-only view of one detected object: the results of `GetLocation()` and
`GetVelocity()`. -/
structure DetectedObject (F : Type) where
  GetLocation : geom.Location F
  GetVelocity : geom.Vector3D F

/-- Read-only view of an actor inside a snapshot: the results of the accessors `Tick` calls,
and the actor's own velocity, which `Tick` never reads. -/
structure ActorSnapshot (F : Type) where
  GetId : ActorId
  GetLocation : geom.Location F
  GetVelocity : geom.Vector3D F
  GetTransform : geom.Transform F
  GetDetectedObjects : List (DetectedObject F)

/-- The class `client::Timestamp`. -/
structure Timestamp (F : Type) where
  elapsed_seconds : F

/-- The class `client::WorldSnapshot`: frame number, timestamp and the actor lookup `Find`. -/
structure WorldSnapshot (F : Type) where
  GetFrame : Nat
  GetTimestamp : Timestamp F
  Find : ActorId → Option (ActorSnapshot F)

/-- The struct `RadarDataPoint`. -/
structure RadarDataPoint (F : Type) where
  location : geom.Location F
  relative_velocity : F
  distance : F
  azimuth : F

namespace sensor.data

/-- The class `sensor::data::LongRangeRadarEvent`: the three members of the `SensorData` base
(`frame`, `timestamp`, `sensor_transform`) followed by `_parent` and `_radar_data`. -/
structure LongRangeRadarEvent (F : Type) where
  frame : Nat
  timestamp : F
  sensor_transform : geom.Transform F
  _parent : ActorId
  _radar_data : List (RadarDataPoint F)

/-- The accessor `LongRangeRadarEvent::GetRadarData`. -/
def LongRangeRadarEvent.GetRadarData {F : Type} (self : LongRangeRadarEvent F) :
    List (RadarDataPoint F) :=
  self._radar_data

end sensor.data

namespace client

open sensor.data

variable {F : Type}

/-- An object thrown by C++ code: either an instance of a class derived from `std::exception`
(with its `what()` text) or an object of any other type. -/
inductive Thrown where
  | stdException (what : String)
  | other (tag : Nat)
  deriving DecidableEq, Repr

/-- The type `Sensor::CallbackFunctionType`: the user callback. It receives the event and either
returns normally (`none`) or throws (`some t`). -/
abbrev CallbackFunctionType (F : Type) := LongRangeRadarEvent F → Option Thrown

/-- The function `static geom::Location Rotate(float yaw, const geom::Location &location)`. -/
def Rotate [Field F] [CMath F] (yaw : F) (location : geom.Location F) : geom.Location F :=
  let yaw := yaw * (CMath.pi / 180)
  let c := CMath.cos yaw
  let s := CMath.sin yaw
  { x := c * location.x - s * location.y,
    y := s * location.x + c * location.y,
    z := location.z }

/-- The class `RadarCallback`: the parent's id and the user callback, fixed at construction. -/
structure RadarCallback (F : Type) where
  _parent : ActorId
  _callback : CallbackFunctionType F

/-- What one call of `RadarCallback::Tick` does: the events handed to the user callback, in
order, and the object that leaves `Tick` as an exception, if any. -/
structure TickOutcome (F : Type) where
  delivered : List (LongRangeRadarEvent F)
  thrown : Option Thrown

/-- Body of the `for` loop of `RadarCallback::Tick`: the data point computed for one detected
object. The source declares the loop variable with the event type; it is filled and stored as
a `RadarDataPoint`. -/
def RadarCallback.dataPoint [Field F] [CMath F] (parent : ActorSnapshot F)
    (object : DetectedObject F) : RadarDataPoint F :=
  let realative_location := object.GetLocation - parent.GetLocation
  { location := object.GetLocation,
    relative_velocity := object.GetVelocity.Length,
    distance := (object.GetLocation - parent.GetLocation).Length,
    azimuth := CMath.atan2 realative_location.y realative_location.x * (180 / CMath.pi) }

/-- The `for` loop of `RadarCallback::Tick`: starting from the empty vector, one `push_back`
per detected object, in iteration order. -/
def RadarCallback.collect [Field F] [CMath F] (parent : ActorSnapshot F) :
    List (RadarDataPoint F) :=
  parent.GetDetectedObjects.foldl
    (fun radar_data object => radar_data ++ [RadarCallback.dataPoint parent object]) []

/-- The method `void RadarCallback::Tick(const WorldSnapshot &snapshot) const`. -/
def RadarCallback.Tick [Field F] [CMath F] (self : RadarCallback F)
    (snapshot : WorldSnapshot F) : TickOutcome F :=
  match snapshot.Find self._parent with
  | none => { delivered := [], thrown := none }
  | some parent =>
    let radar_data := RadarCallback.collect parent
    let radar_event : LongRangeRadarEvent F :=
      { frame := snapshot.GetFrame,
        timestamp := snapshot.GetTimestamp.elapsed_seconds,
        sensor_transform := parent.GetTransform,
        _parent := parent.GetId,
        _radar_data := radar_data }
    { delivered := [radar_event], thrown := self._callback radar_event }

/-- What one call of the handler registered with the tick source does: the events handed to
the user callback, the records written with `log_error` (each the list of its arguments), and
the exception that leaves the handler into the tick source's dispatch loop, if any. -/
structure HandlerOutcome (F : Type) where
  delivered : List (LongRangeRadarEvent F)
  logged : List (List String)
  propagated : Option Thrown

/-- The type of the handlers the tick source stores: called with each new snapshot. -/
abbrev OnTickHandler (F : Type) := WorldSnapshot F → HandlerOutcome F

/-- The lambda `Listen` passes to `RegisterOnTickEvent`:
`try { cb->Tick(snapshot); } catch (const std::exception &e) { log_error(..., e.what()); }`.
The `catch` clause matches the objects derived from `std::exception` and no others. -/
def Listen.handler [Field F] [CMath F] (cb : RadarCallback F) : OnTickHandler F :=
  fun snapshot =>
    let r := cb.Tick snapshot
    match r.thrown with
    | none => { delivered := r.delivered, logged := [], propagated := none }
    | some (Thrown.stdException what) =>
      { delivered := r.delivered, logged := [["LongRangeRadarSensor:", what]],
        propagated := none }
    | some (Thrown.other tag) =>
      { delivered := r.delivered, logged := [], propagated := some (Thrown.other tag) }

/-- A call the tick source receives: a registration together with the identifier it returned,
or a removal together with the identifier it was given. -/
inductive EpisodeCall where
  | RegisterOnTickEvent (returned : Nat)
  | RemoveOnTickEvent (id : Nat)
  deriving DecidableEq, Repr

/-- Modelled from the spec: the tick source behind `GetEpisode()` (carla/client/detail/
Simulator.h and Episode.h are not part of the sources at hand). It holds the registered
handlers, each under its identifier, and a counter from which identifiers are drawn, so that
an identifier is never handed out twice. `calls` records the calls received, oldest first. -/
structure Episode (F : Type) where
  counter : Nat
  callbacks : List (Nat × OnTickHandler F)
  calls : List EpisodeCall

/-- Modelled from the spec: `RegisterOnTickEvent` "registers handler to be invoked once per
frame with the new FrameSnapshot; returns a fresh non-zero identifier". -/
def Episode.RegisterOnTickEvent (self : Episode F) (handler : OnTickHandler F) :
    Nat × Episode F :=
  let id := self.counter + 1
  (id, { counter := id,
         callbacks := self.callbacks ++ [(id, handler)],
         calls := self.calls ++ [EpisodeCall.RegisterOnTickEvent id] })

/-- Modelled from the spec: `RemoveOnTickEvent` unregisters the subscription with the given
identifier; the handlers registered under other identifiers stay. -/
def Episode.RemoveOnTickEvent (self : Episode F) (id : Nat) : Episode F :=
  { self with
    callbacks := self.callbacks.filter (fun e => e.1 != id),
    calls := self.calls ++ [EpisodeCall.RemoveOnTickEvent id] }

/-- The identifiers under which a handler is registered, in registration order. -/
def Episode.registered (self : Episode F) : List Nat :=
  self.callbacks.map Prod.fst

/-- The identifiers passed to `RemoveOnTickEvent` so far, oldest first. -/
def Episode.removals (self : Episode F) : List Nat :=
  self.calls.filterMap
    (fun c => match c with
      | EpisodeCall.RemoveOnTickEvent id => some id
      | EpisodeCall.RegisterOnTickEvent _ => none)

/-- The tick source has handed out fresh non-zero identifiers so far: every registered
identifier is non-zero and at most the counter. -/
def Episode.Fresh (self : Episode F) : Prop :=
  ∀ id ∈ self.registered, id ≠ 0 ∧ id ≤ self.counter

/-- The actor `GetParent()` returns, as far as `Listen` looks at it: its id and whether its
dynamic type is `Vehicle`. -/
structure Actor where
  GetId : ActorId
  isVehicle : Bool
  deriving DecidableEq, Repr

/-- The cast `boost::dynamic_pointer_cast<Vehicle>(GetParent())`: the parent when there is
one and it is a vehicle, `nullptr` otherwise. -/
def dynamic_pointer_cast_Vehicle (parent : Option Actor) : Option Actor :=
  match parent with
  | some a => if a.isVehicle then some a else none
  | none => none

/-- The sensor object together with what its methods act on: the result of `GetParent()`
and of `GetDisplayId()`, the member `_callback_id`, the tick source, and the records written
with `log_error` (each the list of its arguments), oldest first. -/
structure LongRangeRadarSensor (F : Type) where
  GetParent : Option Actor
  GetDisplayId : String
  _callback_id : Nat
  episode : Episode F
  log : List (List String)

/-- The method `void LongRangeRadarSensor::Listen(CallbackFunctionType callback)`.
`GetEpisode().Lock()` returns once it holds the tick source. -/
def LongRangeRadarSensor.Listen [Field F] [CMath F] (self : LongRangeRadarSensor F)
    (callback : CallbackFunctionType F) : LongRangeRadarSensor F :=
  match dynamic_pointer_cast_Vehicle self.GetParent with
  | none =>
    { self with log := self.log ++ [[self.GetDisplayId, ": not attached to a vehicle"]] }
  | some vehicle =>
    let episode := self.episode
    let cb : RadarCallback F := { _parent := vehicle.GetId, _callback := callback }
    let registration := episode.RegisterOnTickEvent (Listen.handler cb)
    let callback_id := registration.1
    let episode := registration.2
    let previous := self._callback_id
    if previous ≠ 0 then
      { self with _callback_id := callback_id, episode := episode.RemoveOnTickEvent previous }
    else
      { self with _callback_id := callback_id, episode := episode }

/-- The method `void LongRangeRadarSensor::Stop()`. The argument `tryLock` tells whether
`GetEpisode().TryLock()` yields the tick source (`true`) or `nullptr` (`false`). -/
def LongRangeRadarSensor.Stop (self : LongRangeRadarSensor F) (tryLock : Bool) :
    LongRangeRadarSensor F :=
  let previous := self._callback_id
  if previous ≠ 0 ∧ tryLock = true then
    { self with _callback_id := 0, episode := self.episode.RemoveOnTickEvent previous }
  else
    { self with _callback_id := 0 }

/-- The destructor `LongRangeRadarSensor::~LongRangeRadarSensor()`: it calls `Stop()`. -/
def LongRangeRadarSensor.destroy (self : LongRangeRadarSensor F) (tryLock : Bool) :
    LongRangeRadarSensor F :=
  self.Stop tryLock

/-- One call on the sensor's public interface. -/
inductive Op (F : Type) where
  | Listen (callback : CallbackFunctionType F)
  | Stop

/-- Run one call with the tick source reachable. -/
def LongRangeRadarSensor.step [Field F] [CMath F] (self : LongRangeRadarSensor F) :
    Op F → LongRangeRadarSensor F
  | Op.Listen callback => self.Listen callback
  | Op.Stop => self.Stop true

/-- Run a sequence of calls, first to last, with the tick source reachable. -/
def LongRangeRadarSensor.run [Field F] [CMath F] (self : LongRangeRadarSensor F)
    (ops : List (Op F)) : LongRangeRadarSensor F :=
  ops.foldl LongRangeRadarSensor.step self

/-- The states one `Listen` call passes through, first to last: the state at the call, then
for a parent that is not a vehicle the state after `log_error`; for a vehicle the state after
`RegisterOnTickEvent`, the state after `_callback_id.exchange(callback_id)`, and, when the
previous identifier is non-zero, the state after `RemoveOnTickEvent(previous)`. -/
def LongRangeRadarSensor.ListenStates [Field F] [CMath F] (self : LongRangeRadarSensor F)
    (callback : CallbackFunctionType F) : List (LongRangeRadarSensor F) :=
  match dynamic_pointer_cast_Vehicle self.GetParent with
  | none =>
    [self, { self with log := self.log ++ [[self.GetDisplayId, ": not attached to a vehicle"]] }]
  | some vehicle =>
    let cb : RadarCallback F := { _parent := vehicle.GetId, _callback := callback }
    let registration := self.episode.RegisterOnTickEvent (Listen.handler cb)
    let callback_id := registration.1
    let registered : LongRangeRadarSensor F := { self with episode := registration.2 }
    let previous := registered._callback_id
    let exchanged : LongRangeRadarSensor F := { registered with _callback_id := callback_id }
    if previous ≠ 0 then
      [self, registered, exchanged,
       { exchanged with episode := exchanged.episode.RemoveOnTickEvent previous }]
    else
      [self, registered, exchanged]

/-- The `for` loop of `RadarCallback::Tick` when handling an object can fail. `failure i` is the
exception thrown while the loop body handles the object at position `i` of the iteration (by
an accessor of the object or by `push_back`), if any. The loop body is not inside a `try`
block, so the first exception ends the loop and leaves it. `i` is the position of the next
object and `radar_data` the vector filled so far. -/
def RadarCallback.collectOrThrow [Field F] [CMath F] (failure : Nat → Option Thrown)
    (parent : ActorSnapshot F) :
    List (DetectedObject F) → Nat → List (RadarDataPoint F) →
      Except Thrown (List (RadarDataPoint F))
  | [], _, radar_data => Except.ok radar_data
  | object :: rest, i, radar_data =>
    match failure i with
    | some t => Except.error t
    | none =>
      RadarCallback.collectOrThrow failure parent rest (i + 1)
        (radar_data ++ [RadarCallback.dataPoint parent object])

/-- The method `RadarCallback::Tick` when handling an object can fail, see `collectOrThrow`:
an exception thrown inside the loop leaves `Tick` before the event is built. -/
def RadarCallback.TickOrThrow [Field F] [CMath F] (failure : Nat → Option Thrown)
    (self : RadarCallback F) (snapshot : WorldSnapshot F) : TickOutcome F :=
  match snapshot.Find self._parent with
  | none => { delivered := [], thrown := none }
  | some parent =>
    match RadarCallback.collectOrThrow failure parent parent.GetDetectedObjects 0 [] with
    | Except.error t => { delivered := [], thrown := some t }
    | Except.ok radar_data =>
      let radar_event : LongRangeRadarEvent F :=
        { frame := snapshot.GetFrame,
          timestamp := snapshot.GetTimestamp.elapsed_seconds,
          sensor_transform := parent.GetTransform,
          _parent := parent.GetId,
          _radar_data := radar_data }
      { delivered := [radar_event], thrown := self._callback radar_event }

/-- The lambda `Listen` passes to `RegisterOnTickEvent`, around `TickOrThrow`. -/
def Listen.handlerOrThrow [Field F] [CMath F] (failure : Nat → Option Thrown)
    (cb : RadarCallback F) : OnTickHandler F :=
  fun snapshot =>
    let r := cb.TickOrThrow failure snapshot
    match r.thrown with
    | none => { delivered := r.delivered, logged := [], propagated := none }
    | some (Thrown.stdException what) =>
      { delivered := r.delivered, logged := [["LongRangeRadarSensor:", what]],
        propagated := none }
    | some (Thrown.other tag) =>
      { delivered := r.delivered, logged := [], propagated := some (Thrown.other tag) }

/-- The point `a` moved by the vector `t`, coordinate by coordinate. -/
def translate [Add F] (t : geom.Vector3D F) (a : geom.Location F) : geom.Location F :=
  { x := a.x + t.x, y := a.y + t.y, z := a.z + t.z }

/-- A detected object moved by the vector `t`; its velocity stays. -/
def translateObject [Add F] (t : geom.Vector3D F) (object : DetectedObject F) :
    DetectedObject F :=
  { object with GetLocation := client.translate t object.GetLocation }

/-- An actor moved by the vector `t` together with every object it detects; velocities and
the rotation stay. -/
def translateActor [Add F] (t : geom.Vector3D F) (actor : ActorSnapshot F) :
    ActorSnapshot F :=
  { actor with
    GetLocation := client.translate t actor.GetLocation,
    GetTransform :=
      { actor.GetTransform with location := client.translate t actor.GetTransform.location },
    GetDetectedObjects := actor.GetDetectedObjects.map (translateObject t) }

/-! Sample data used to instantiate the statements below. -/

namespace Sample

/-- A parent vehicle with id 7 standing at the origin, seeing the given objects. -/
def parent (F : Type) [Field F] (objects : List (DetectedObject F)) : ActorSnapshot F :=
  { GetId := 7,
    GetLocation := { x := 0, y := 0, z := 0 },
    GetVelocity := { x := 1, y := 0, z := 0 },
    GetTransform :=
      { location := { x := 0, y := 0, z := 0 }, rotation := { pitch := 0, yaw := 90, roll := 0 } },
    GetDetectedObjects := objects }

/-- A detected object at (3, 4, 0) moving with velocity (0, 5, 0). -/
def object345 (F : Type) [Field F] : DetectedObject F :=
  { GetLocation := { x := 3, y := 4, z := 0 }, GetVelocity := { x := 0, y := 5, z := 0 } }

/-- A detected object at (-1, 0, 0) at rest. -/
def objectBehind (F : Type) [Field F] : DetectedObject F :=
  { GetLocation := { x := -1, y := 0, z := 0 }, GetVelocity := { x := 0, y := 0, z := 0 } }

/-- Frame 42 at 2 seconds, in which actor 7 is the sample parent seeing the given objects and
no other id resolves. -/
def snapshot (F : Type) [Field F] (objects : List (DetectedObject F)) : WorldSnapshot F :=
  { GetFrame := 42,
    GetTimestamp := { elapsed_seconds := 2 },
    Find := fun id => if id = 7 then some (parent F objects) else none }

/-- A user callback that returns normally. -/
def quiet (F : Type) : CallbackFunctionType F := fun _ => none

/-- A user callback that throws a `std::runtime_error`. -/
def throwsStd (F : Type) : CallbackFunctionType F :=
  fun _ => some (Thrown.stdException "boom")

/-- A user callback that throws an `int`. -/
def throwsInt (F : Type) : CallbackFunctionType F := fun _ => some (Thrown.other 0)

/-- A tick source with two handlers of other subscribers, under the identifiers 1 and 2. -/
def episode (F : Type) : Episode F :=
  { counter := 2,
    callbacks :=
      [(1, fun _ => { delivered := [], logged := [], propagated := none }),
       (2, fun _ => { delivered := [], logged := [], propagated := none })],
    calls := [EpisodeCall.RegisterOnTickEvent 1, EpisodeCall.RegisterOnTickEvent 2] }

/-- A sensor attached to vehicle 7 that has not listened yet. -/
def onVehicle (F : Type) : LongRangeRadarSensor F :=
  { GetParent := some { GetId := 7, isVehicle := true },
    GetDisplayId := "sensor.other.long_range_radar",
    _callback_id := 0,
    episode := episode F,
    log := [] }

/-- A sensor attached to actor 9, which is not a vehicle, that has not listened yet. -/
def onWalker (F : Type) : LongRangeRadarSensor F :=
  { GetParent := some { GetId := 9, isVehicle := false },
    GetDisplayId := "sensor.other.long_range_radar",
    _callback_id := 0,
    episode := episode F,
    log := [] }

/-- A detected object at (0, 1, 0) at rest. -/
def objectLeft (F : Type) [Field F] : DetectedObject F :=
  { GetLocation := { x := 0, y := 1, z := 0 }, GetVelocity := { x := 0, y := 0, z := 0 } }

/-- Frame 42 at 2 seconds, in which actor 7 is the sample parent turned to the given yaw,
seeing the given objects. -/
def snapshotFacing (F : Type) [Field F] (yaw : F) (objects : List (DetectedObject F)) :
    WorldSnapshot F :=
  { GetFrame := 42,
    GetTimestamp := { elapsed_seconds := 2 },
    Find := fun id =>
      if id = 7 then
        some { parent F objects with
          GetTransform :=
            { location := { x := 0, y := 0, z := 0 },
              rotation := { pitch := 0, yaw := yaw, roll := 0 } } }
      else none }

/-- Handling the first object of the iteration throws a `std::runtime_error`; the others are
handled without failure. -/
def firstObjectFails : Nat → Option Thrown :=
  fun i => if i = 0 then some (Thrown.stdException "destroyed actor") else none

/-- A sensor attached to vehicle 7 that is listening: identifier 2 is stored and registered. -/
def listening (F : Type) : LongRangeRadarSensor F :=
  { GetParent := some { GetId := 7, isVehicle := true },
    GetDisplayId := "sensor.other.long_range_radar",
    _callback_id := 2,
    episode := episode F,
    log := [] }

/-- A sensor attached to vehicle 7 that has not listened yet, on a tick source without any
registration. -/
def alone (F : Type) : LongRangeRadarSensor F :=
  { GetParent := some { GetId := 7, isVehicle := true },
    GetDisplayId := "sensor.other.long_range_radar",
    _callback_id := 0,
    episode := { counter := 0, callbacks := [], calls := [] },
    log := [] }

end Sample

/-! Measurement synthesis: `RadarCallback::Tick`. -/

/-- The `push_back` loop yields the data points of the detected objects, in order, after
whatever the vector held before. -/
theorem foldl_push_back {α β : Type} (f : α → β) (l : List α) (init : List β) :
    l.foldl (fun acc a => acc ++ [f a]) init = init ++ l.map f := by
  induction l generalizing init with
  | nil => simp
  | cons a l ih => simp [ih]

/-- The loop of `Tick` computes one data point per detected object, in iteration order. -/
theorem RadarCallback.collect_eq_map [Field F] [CMath F] (parent : ActorSnapshot F) :
    RadarCallback.collect parent
      = parent.GetDetectedObjects.map (RadarCallback.dataPoint parent) := by
  unfold RadarCallback.collect
  rw [foldl_push_back]
  simp

/-- When the parent resolves, `Tick` hands exactly the event it builds to the callback. -/
theorem RadarCallback.Tick_found [Field F] [CMath F] (self : RadarCallback F)
    (snapshot : WorldSnapshot F) (parent : ActorSnapshot F)
    (hfind : snapshot.Find self._parent = some parent) :
    self.Tick snapshot =
      { delivered :=
          [{ frame := snapshot.GetFrame,
             timestamp := snapshot.GetTimestamp.elapsed_seconds,
             sensor_transform := parent.GetTransform,
             _parent := parent.GetId,
             _radar_data := parent.GetDetectedObjects.map (RadarCallback.dataPoint parent) }],
        thrown := self._callback
          { frame := snapshot.GetFrame,
            timestamp := snapshot.GetTimestamp.elapsed_seconds,
            sensor_transform := parent.GetTransform,
            _parent := parent.GetId,
            _radar_data := parent.GetDetectedObjects.map (RadarCallback.dataPoint parent) } } := by
  unfold RadarCallback.Tick
  rw [hfind]
  simp only [RadarCallback.collect_eq_map]

/-- C1: when the parent id resolves, `Tick` invokes the user callback exactly once, with an
event that has as many data points as the parent has detected objects, and whose i-th data
point carries the location of the i-th detected object. -/
theorem RadarCallback.Tick_one_data_point_per_object [Field F] [CMath F]
    (self : RadarCallback F) (snapshot : WorldSnapshot F) (parent : ActorSnapshot F)
    (hfind : snapshot.Find self._parent = some parent) :
    ∃ event : LongRangeRadarEvent F,
      (self.Tick snapshot).delivered = [event] ∧
      (self.Tick snapshot).thrown = self._callback event ∧
      event.GetRadarData.length = parent.GetDetectedObjects.length ∧
      ∀ (i : Nat) (object : DetectedObject F),
        parent.GetDetectedObjects[i]? = some object →
        ∃ point : RadarDataPoint F,
          event.GetRadarData[i]? = some point ∧ point.location = object.GetLocation := by
  rw [RadarCallback.Tick_found self snapshot parent hfind]
  refine ⟨_, rfl, rfl, ?_, ?_⟩
  · simp [LongRangeRadarEvent.GetRadarData]
  · intro i object hobj
    refine ⟨RadarCallback.dataPoint parent object, ?_, rfl⟩
    simp [LongRangeRadarEvent.GetRadarData, List.getElem?_map, hobj]

/-- Instance of C1: the sample parent with two detected objects, and with none. -/
theorem RadarCallback.Tick_one_data_point_per_object_witness :
    (∃ event : LongRangeRadarEvent ℝ,
      (RadarCallback.Tick ⟨7, Sample.quiet ℝ⟩
        (Sample.snapshot ℝ [Sample.object345 ℝ, Sample.objectBehind ℝ])).delivered = [event] ∧
      (RadarCallback.Tick ⟨7, Sample.quiet ℝ⟩
        (Sample.snapshot ℝ [Sample.object345 ℝ, Sample.objectBehind ℝ])).thrown
          = Sample.quiet ℝ event ∧
      event.GetRadarData.length = 2 ∧
      ∀ (i : Nat) (object : DetectedObject ℝ),
        [Sample.object345 ℝ, Sample.objectBehind ℝ][i]? = some object →
        ∃ point : RadarDataPoint ℝ,
          event.GetRadarData[i]? = some point ∧ point.location = object.GetLocation) ∧
    (∃ event : LongRangeRadarEvent ℝ,
      (RadarCallback.Tick ⟨7, Sample.quiet ℝ⟩ (Sample.snapshot ℝ [])).delivered = [event] ∧
      event.GetRadarData.length = 0) :=
  ⟨RadarCallback.Tick_one_data_point_per_object ⟨7, Sample.quiet ℝ⟩
      (Sample.snapshot ℝ [Sample.object345 ℝ, Sample.objectBehind ℝ])
      (Sample.parent ℝ [Sample.object345 ℝ, Sample.objectBehind ℝ]) rfl,
   (RadarCallback.Tick_one_data_point_per_object ⟨7, Sample.quiet ℝ⟩
      (Sample.snapshot ℝ []) (Sample.parent ℝ []) rfl).imp
      (fun _ h => ⟨h.1, h.2.2.1⟩)⟩

/-- C2: when the parent id does not resolve, `Tick` hands nothing to the user callback and
throws nothing, whatever else the snapshot holds. -/
theorem RadarCallback.Tick_parent_not_found [Field F] [CMath F]
    (self : RadarCallback F) (snapshot : WorldSnapshot F)
    (hfind : snapshot.Find self._parent = none) :
    (self.Tick snapshot).delivered = [] ∧ (self.Tick snapshot).thrown = none := by
  unfold RadarCallback.Tick
  rw [hfind]
  exact ⟨rfl, rfl⟩

/-- Instance of C2: a callback for parent 8 on a snapshot that only knows actor 7, even with a
user callback that would throw. -/
theorem RadarCallback.Tick_parent_not_found_witness :
    (Sample.snapshot ℝ [Sample.object345 ℝ]).Find 8 = none ∧
    (RadarCallback.Tick ⟨8, Sample.throwsInt ℝ⟩
      (Sample.snapshot ℝ [Sample.object345 ℝ])).delivered = [] ∧
    (RadarCallback.Tick ⟨8, Sample.throwsInt ℝ⟩
      (Sample.snapshot ℝ [Sample.object345 ℝ])).thrown = none :=
  ⟨rfl, RadarCallback.Tick_parent_not_found ⟨8, Sample.throwsInt ℝ⟩
    (Sample.snapshot ℝ [Sample.object345 ℝ]) rfl⟩

/-- Over the reals `Vector3D::Length` is the square root of the sum of the squared
coordinates. -/
theorem Length_real (v : geom.Vector3D ℝ) :
    v.Length = Real.sqrt (v.x ^ 2 + v.y ^ 2 + v.z ^ 2) := by
  show Real.sqrt (v.x * v.x + v.y * v.y + v.z * v.z) = _
  congr 1
  ring

/-- The coordinates of a difference of locations. -/
theorem sub_coords [Sub F] (a b : geom.Vector3D F) :
    (a - b).x = a.x - b.x ∧ (a - b).y = a.y - b.y ∧ (a - b).z = a.z - b.z :=
  ⟨rfl, rfl, rfl⟩

/-- C7: for a resolvable parent and every detected object, the data point `Tick` produces
carries the object's location verbatim, the Euclidean length of the object's own velocity as
`relative_velocity`, and the Euclidean length of (object location − parent location) as
`distance`; the parent's velocity does not enter the data points. Coordinates are reals. -/
theorem RadarCallback.Tick_location_velocity_distance
    (self : RadarCallback ℝ) (snapshot : WorldSnapshot ℝ) (parent : ActorSnapshot ℝ)
    (hfind : snapshot.Find self._parent = some parent) :
    ∃ event : LongRangeRadarEvent ℝ,
      (self.Tick snapshot).delivered = [event] ∧
      (∀ (i : Nat) (object : DetectedObject ℝ),
        parent.GetDetectedObjects[i]? = some object →
        ∃ point : RadarDataPoint ℝ,
          event.GetRadarData[i]? = some point ∧
          point.location = object.GetLocation ∧
          point.relative_velocity =
            Real.sqrt (object.GetVelocity.x ^ 2 + object.GetVelocity.y ^ 2
              + object.GetVelocity.z ^ 2) ∧
          point.distance =
            Real.sqrt ((object.GetLocation.x - parent.GetLocation.x) ^ 2
              + (object.GetLocation.y - parent.GetLocation.y) ^ 2
              + (object.GetLocation.z - parent.GetLocation.z) ^ 2)) ∧
      ∀ velocity : geom.Vector3D ℝ,
        RadarCallback.collect { parent with GetVelocity := velocity } = event.GetRadarData := by
  rw [RadarCallback.Tick_found self snapshot parent hfind]
  refine ⟨_, rfl, ?_, ?_⟩
  · intro i object hobj
    refine ⟨RadarCallback.dataPoint parent object, ?_, rfl, ?_, ?_⟩
    · simp [LongRangeRadarEvent.GetRadarData, List.getElem?_map, hobj]
    · exact Length_real object.GetVelocity
    · show (object.GetLocation - parent.GetLocation).Length = _
      rw [Length_real]
      simp only [sub_coords]
  · intro velocity
    rw [RadarCallback.collect_eq_map]
    rfl

/-- Instance of C7: parent at (0,0,0), one object at (3,4,0) with velocity (0,5,0): the data
point has distance 5 and relative velocity 5. -/
theorem RadarCallback.Tick_location_velocity_distance_witness :
    ∃ event : LongRangeRadarEvent ℝ,
      (RadarCallback.Tick ⟨7, Sample.quiet ℝ⟩
        (Sample.snapshot ℝ [Sample.object345 ℝ])).delivered = [event] ∧
      ∃ point : RadarDataPoint ℝ,
        event.GetRadarData[0]? = some point ∧
        point.location = { x := 3, y := 4, z := 0 } ∧
        point.relative_velocity = 5 ∧
        point.distance = 5 := by
  obtain ⟨event, hdel, hpoints, _⟩ :=
    RadarCallback.Tick_location_velocity_distance ⟨7, Sample.quiet ℝ⟩
      (Sample.snapshot ℝ [Sample.object345 ℝ]) (Sample.parent ℝ [Sample.object345 ℝ]) rfl
  obtain ⟨point, hpoint, hloc, hvel, hdist⟩ := hpoints 0 (Sample.object345 ℝ) rfl
  refine ⟨event, hdel, point, hpoint, hloc, ?_, ?_⟩
  · rw [hvel]
    have h : (Sample.object345 ℝ).GetVelocity.x ^ 2 + (Sample.object345 ℝ).GetVelocity.y ^ 2
        + (Sample.object345 ℝ).GetVelocity.z ^ 2 = (5 : ℝ) ^ 2 := by
      simp [Sample.object345]
    rw [h]
    exact Real.sqrt_sq (by norm_num)
  · rw [hdist]
    have h : ((Sample.object345 ℝ).GetLocation.x
          - (Sample.parent ℝ [Sample.object345 ℝ]).GetLocation.x) ^ 2
        + ((Sample.object345 ℝ).GetLocation.y
          - (Sample.parent ℝ [Sample.object345 ℝ]).GetLocation.y) ^ 2
        + ((Sample.object345 ℝ).GetLocation.z
          - (Sample.parent ℝ [Sample.object345 ℝ]).GetLocation.z) ^ 2 = (5 : ℝ) ^ 2 := by
      simp [Sample.object345, Sample.parent]
      norm_num
    rw [h]
    exact Real.sqrt_sq (by norm_num)

/-- C8: when the parent resolves, the event `Tick` delivers carries the snapshot's frame
number, the snapshot's elapsed seconds, and the transform and id of the parent as found in
that snapshot; of the callback object only `_parent` is used, for the lookup. -/
theorem RadarCallback.Tick_event_metadata [Field F] [CMath F]
    (self : RadarCallback F) (snapshot : WorldSnapshot F) (parent : ActorSnapshot F)
    (hfind : snapshot.Find self._parent = some parent) :
    ∃ event : LongRangeRadarEvent F,
      (self.Tick snapshot).delivered = [event] ∧
      event.frame = snapshot.GetFrame ∧
      event.timestamp = snapshot.GetTimestamp.elapsed_seconds ∧
      event.sensor_transform = parent.GetTransform ∧
      event._parent = parent.GetId ∧
      ∀ other : RadarCallback F, other._parent = self._parent →
        (other.Tick snapshot).delivered = [event] := by
  rw [RadarCallback.Tick_found self snapshot parent hfind]
  refine ⟨_, rfl, rfl, rfl, rfl, rfl, ?_⟩
  intro other hother
  rw [RadarCallback.Tick_found other snapshot parent (hother ▸ hfind)]

/-- Instance of C8: the sample snapshot (frame 42, 2 seconds, parent 7 with yaw 90). -/
theorem RadarCallback.Tick_event_metadata_witness :
    ∃ event : LongRangeRadarEvent ℝ,
      (RadarCallback.Tick ⟨7, Sample.quiet ℝ⟩
        (Sample.snapshot ℝ [Sample.object345 ℝ])).delivered = [event] ∧
      event.frame = 42 ∧
      event.timestamp = 2 ∧
      event.sensor_transform =
        { location := { x := 0, y := 0, z := 0 },
          rotation := { pitch := 0, yaw := 90, roll := 0 } } ∧
      event._parent = 7 :=
  (RadarCallback.Tick_event_metadata ⟨7, Sample.quiet ℝ⟩
    (Sample.snapshot ℝ [Sample.object345 ℝ]) (Sample.parent ℝ [Sample.object345 ℝ]) rfl).imp
    (fun _ h => ⟨h.1, h.2.1, h.2.2.1, h.2.2.2.1, h.2.2.2.2.1⟩)

/-! The subscription life cycle: `Listen`, `Stop` and the destructor. -/

/-- Removing an identifier that is not registered leaves the handlers as they are. -/
theorem filter_not_registered {α : Type} (l : List (Nat × α)) (k : Nat)
    (hk : k ∉ l.map Prod.fst) : l.filter (fun e => e.1 != k) = l := by
  rw [List.filter_eq_self]
  intro e he
  have hne : e.1 ≠ k := fun h => hk (h ▸ List.mem_map_of_mem Prod.fst he)
  simpa using hne

/-- After a removal the identifier is no longer registered. -/
theorem not_registered_after_remove (episode : Episode F) (id : Nat) :
    id ∉ (episode.RemoveOnTickEvent id).registered := by
  simp [Episode.RemoveOnTickEvent, Episode.registered]

/-- The removals recorded after one more call. -/
theorem removals_append (calls : List EpisodeCall) (c : EpisodeCall) :
    List.filterMap
        (fun c => match c with
          | EpisodeCall.RemoveOnTickEvent id => some id
          | EpisodeCall.RegisterOnTickEvent _ => none) (calls ++ [c])
      = List.filterMap
          (fun c => match c with
            | EpisodeCall.RemoveOnTickEvent id => some id
            | EpisodeCall.RegisterOnTickEvent _ => none) calls
        ++ (match c with
            | EpisodeCall.RemoveOnTickEvent id => [id]
            | EpisodeCall.RegisterOnTickEvent _ => []) := by
  cases c <;> simp [List.filterMap_append]

/-- What `Stop` does when the stored identifier is non-zero and the tick source is there. -/
theorem LongRangeRadarSensor.Stop_subscribed (self : LongRangeRadarSensor F)
    (hid : self._callback_id ≠ 0) :
    self.Stop true =
      { self with _callback_id := 0,
                  episode := self.episode.RemoveOnTickEvent self._callback_id } := by
  simp [LongRangeRadarSensor.Stop, hid]

/-- What `Stop` does when the stored identifier is zero or the tick source is gone. -/
theorem LongRangeRadarSensor.Stop_idle (self : LongRangeRadarSensor F) (tryLock : Bool)
    (h : self._callback_id = 0 ∨ tryLock = false) :
    self.Stop tryLock = { self with _callback_id := 0 } := by
  rcases h with h | h <;> simp [LongRangeRadarSensor.Stop, h]

/-- C4: `Stop` is idempotent. From every state a second `Stop` changes nothing after the
first, whether or not the tick source is reachable at either call; after one `Stop` the stored
identifier is zero and, the tick source being reachable, the identifier that was stored is no
longer registered; the two calls together add at most one `RemoveOnTickEvent` call; and on a
sensor whose stored identifier is zero (it never listened) `Stop` leaves the tick source
untouched. -/
theorem LongRangeRadarSensor.Stop_idempotent (self : LongRangeRadarSensor F)
    (first second : Bool) :
    (self.Stop first).Stop second = self.Stop first ∧
    (self.Stop first)._callback_id = 0 ∧
    (self._callback_id ≠ 0 → self._callback_id ∉ (self.Stop true).episode.registered) ∧
    ((self.Stop first).Stop second).episode.calls =
      self.episode.calls ++
        (if self._callback_id ≠ 0 ∧ first = true
          then [EpisodeCall.RemoveOnTickEvent self._callback_id] else []) ∧
    ((self.Stop first).Stop second).episode.removals.length
      ≤ self.episode.removals.length + 1 ∧
    (self._callback_id = 0 → (self.Stop first).episode = self.episode) := by
  have hzero : (self.Stop first)._callback_id = 0 := by
    simp only [LongRangeRadarSensor.Stop]
    split_ifs <;> rfl
  have hagain : (self.Stop first).Stop second = self.Stop first := by
    rw [LongRangeRadarSensor.Stop_idle (self.Stop first) second (Or.inl hzero)]
    simp only [LongRangeRadarSensor.Stop]
    split_ifs <;> rfl
  have hidle : ¬ (self._callback_id ≠ 0 ∧ first = true) →
      self._callback_id = 0 ∨ first = false := by
    intro hc
    by_cases hid : self._callback_id = 0
    · exact Or.inl hid
    · right
      cases first
      · rfl
      · exact absurd ⟨hid, rfl⟩ hc
  refine ⟨hagain, hzero, ?_, ?_, ?_, ?_⟩
  · intro hid
    rw [LongRangeRadarSensor.Stop_subscribed self hid]
    exact not_registered_after_remove self.episode self._callback_id
  · rw [hagain]
    by_cases hc : self._callback_id ≠ 0 ∧ first = true
    · obtain ⟨hid, rfl⟩ := hc
      rw [LongRangeRadarSensor.Stop_subscribed self hid]
      simp [Episode.RemoveOnTickEvent, hid]
    · rw [if_neg hc, LongRangeRadarSensor.Stop_idle self first (hidle hc)]
      simp
  · rw [hagain]
    by_cases hc : self._callback_id ≠ 0 ∧ first = true
    · obtain ⟨hid, rfl⟩ := hc
      rw [LongRangeRadarSensor.Stop_subscribed self hid]
      simp [Episode.RemoveOnTickEvent, Episode.removals, removals_append]
    · rw [LongRangeRadarSensor.Stop_idle self first (hidle hc)]
      exact Nat.le_succ _
  · intro hid
    rw [LongRangeRadarSensor.Stop_idle self first (Or.inl hid)]

/-- Instance of C4: the sample sensor after one `Listen` (identifier 3 stored and
registered), stopped twice; and the sample sensor that never listened, stopped once. -/
theorem LongRangeRadarSensor.Stop_idempotent_witness :
    ((Sample.onVehicle ℝ).Listen (Sample.quiet ℝ))._callback_id = 3 ∧
    ((((Sample.onVehicle ℝ).Listen (Sample.quiet ℝ)).Stop true).Stop true
      = ((Sample.onVehicle ℝ).Listen (Sample.quiet ℝ)).Stop true) ∧
    (((Sample.onVehicle ℝ).Listen (Sample.quiet ℝ)).Stop true)._callback_id = 0 ∧
    3 ∉ (((Sample.onVehicle ℝ).Listen (Sample.quiet ℝ)).Stop true).episode.registered ∧
    ((((Sample.onVehicle ℝ).Listen (Sample.quiet ℝ)).Stop true).Stop true).episode.calls
      = [EpisodeCall.RegisterOnTickEvent 1, EpisodeCall.RegisterOnTickEvent 2,
         EpisodeCall.RegisterOnTickEvent 3, EpisodeCall.RemoveOnTickEvent 3] ∧
    ((Sample.onVehicle ℝ).Stop true).episode = (Sample.onVehicle ℝ).episode :=
  ⟨rfl,
   (LongRangeRadarSensor.Stop_idempotent
      ((Sample.onVehicle ℝ).Listen (Sample.quiet ℝ)) true true).1,
   (LongRangeRadarSensor.Stop_idempotent
      ((Sample.onVehicle ℝ).Listen (Sample.quiet ℝ)) true true).2.1,
   (LongRangeRadarSensor.Stop_idempotent
      ((Sample.onVehicle ℝ).Listen (Sample.quiet ℝ)) true true).2.2.1 (by decide),
   (LongRangeRadarSensor.Stop_idempotent
      ((Sample.onVehicle ℝ).Listen (Sample.quiet ℝ)) true true).2.2.2.1,
   (LongRangeRadarSensor.Stop_idempotent (Sample.onVehicle ℝ) true true).2.2.2.2.2 rfl⟩

/-- What `Listen` does when the parent is not a vehicle. -/
theorem LongRangeRadarSensor.Listen_not_vehicle [Field F] [CMath F]
    (self : LongRangeRadarSensor F) (callback : CallbackFunctionType F)
    (hparent : dynamic_pointer_cast_Vehicle self.GetParent = none) :
    self.Listen callback =
      { self with
        log := self.log ++ [[self.GetDisplayId, ": not attached to a vehicle"]] } := by
  unfold LongRangeRadarSensor.Listen
  rw [hparent]

/-- C5: when the sensor's parent is not a vehicle, `Listen` leaves the stored identifier and
the tick source (its registrations and the calls it has received) exactly as they were and
only writes the attachment error to the log; a `Stop` afterwards on a sensor that had not
listened (stored identifier zero) leaves the tick source untouched as well. -/
theorem LongRangeRadarSensor.Listen_not_attached_to_vehicle [Field F] [CMath F]
    (self : LongRangeRadarSensor F) (callback : CallbackFunctionType F)
    (hparent : dynamic_pointer_cast_Vehicle self.GetParent = none) :
    (self.Listen callback)._callback_id = self._callback_id ∧
    (self.Listen callback).episode = self.episode ∧
    (self.Listen callback).log
      = self.log ++ [[self.GetDisplayId, ": not attached to a vehicle"]] ∧
    (self._callback_id = 0 → ∀ tryLock : Bool,
      ((self.Listen callback).Stop tryLock).episode = self.episode ∧
      ((self.Listen callback).Stop tryLock)._callback_id = 0 ∧
      ((self.Listen callback).Stop tryLock).log = (self.Listen callback).log) := by
  rw [LongRangeRadarSensor.Listen_not_vehicle self callback hparent]
  refine ⟨rfl, rfl, rfl, ?_⟩
  intro hid tryLock
  rw [LongRangeRadarSensor.Stop_idle
    { self with log := self.log ++ [[self.GetDisplayId, ": not attached to a vehicle"]] }
    tryLock (Or.inl hid)]
  exact ⟨rfl, rfl, rfl⟩

/-- Instance of C5: the sample sensor attached to a walker. -/
theorem LongRangeRadarSensor.Listen_not_attached_to_vehicle_witness :
    ((Sample.onWalker ℝ).Listen (Sample.quiet ℝ))._callback_id = 0 ∧
    ((Sample.onWalker ℝ).Listen (Sample.quiet ℝ)).episode = (Sample.onWalker ℝ).episode ∧
    ((Sample.onWalker ℝ).Listen (Sample.quiet ℝ)).log
      = [["sensor.other.long_range_radar", ": not attached to a vehicle"]] ∧
    ((Sample.onWalker ℝ)._callback_id = 0 → ∀ tryLock : Bool,
      (((Sample.onWalker ℝ).Listen (Sample.quiet ℝ)).Stop tryLock).episode
        = (Sample.onWalker ℝ).episode ∧
      (((Sample.onWalker ℝ).Listen (Sample.quiet ℝ)).Stop tryLock)._callback_id = 0 ∧
      (((Sample.onWalker ℝ).Listen (Sample.quiet ℝ)).Stop tryLock).log
        = ((Sample.onWalker ℝ).Listen (Sample.quiet ℝ)).log) :=
  LongRangeRadarSensor.Listen_not_attached_to_vehicle (Sample.onWalker ℝ) (Sample.quiet ℝ) rfl

/-- C10: when `TryLock` yields nothing, `Stop` changes nothing but the stored identifier,
which becomes zero: the tick source receives no call and nothing is logged. In general `Stop`
issues a `RemoveOnTickEvent` call exactly when the stored identifier was non-zero and the
tick source is reachable, and then one call, for that identifier. -/
theorem LongRangeRadarSensor.Stop_unreachable (self : LongRangeRadarSensor F) :
    (self.Stop false)._callback_id = 0 ∧
    (self.Stop false).episode = self.episode ∧
    (self.Stop false).log = self.log ∧
    ∀ tryLock : Bool,
      ((self._callback_id ≠ 0 ∧ tryLock = true) →
        (self.Stop tryLock).episode.calls
          = self.episode.calls ++ [EpisodeCall.RemoveOnTickEvent self._callback_id]) ∧
      (¬ (self._callback_id ≠ 0 ∧ tryLock = true) →
        (self.Stop tryLock).episode.calls = self.episode.calls) ∧
      ((self.Stop tryLock).episode.removals ≠ self.episode.removals
        ↔ (self._callback_id ≠ 0 ∧ tryLock = true)) := by
  rw [LongRangeRadarSensor.Stop_idle self false (Or.inr rfl)]
  refine ⟨rfl, rfl, rfl, ?_⟩
  intro tryLock
  have hidle : ¬ (self._callback_id ≠ 0 ∧ tryLock = true) →
      self.Stop tryLock = { self with _callback_id := 0 } := by
    intro hc
    apply LongRangeRadarSensor.Stop_idle
    by_cases hid : self._callback_id = 0
    · exact Or.inl hid
    · right
      cases tryLock
      · rfl
      · exact absurd ⟨hid, rfl⟩ hc
  refine ⟨?_, ?_, ?_⟩
  · rintro ⟨hid, rfl⟩
    rw [LongRangeRadarSensor.Stop_subscribed self hid]
    rfl
  · intro hc
    rw [hidle hc]
  · constructor
    · intro hne
      by_contra hc
      exact hne (by rw [hidle hc])
    · rintro ⟨hid, rfl⟩
      rw [LongRangeRadarSensor.Stop_subscribed self hid]
      simp [Episode.RemoveOnTickEvent, Episode.removals, removals_append]

/-- Instance of C10: the sample sensor after one `Listen` (identifier 3), stopped with the
tick source gone, and stopped with the tick source reachable. -/
theorem LongRangeRadarSensor.Stop_unreachable_witness :
    (((Sample.onVehicle ℝ).Listen (Sample.quiet ℝ)).Stop false).episode
      = ((Sample.onVehicle ℝ).Listen (Sample.quiet ℝ)).episode ∧
    (((Sample.onVehicle ℝ).Listen (Sample.quiet ℝ)).Stop true).episode.calls
      = [EpisodeCall.RegisterOnTickEvent 1, EpisodeCall.RegisterOnTickEvent 2,
         EpisodeCall.RegisterOnTickEvent 3, EpisodeCall.RemoveOnTickEvent 3] :=
  ⟨(LongRangeRadarSensor.Stop_unreachable
      ((Sample.onVehicle ℝ).Listen (Sample.quiet ℝ))).2.1,
   ((LongRangeRadarSensor.Stop_unreachable
      ((Sample.onVehicle ℝ).Listen (Sample.quiet ℝ))).2.2.2 true).1 ⟨by decide, rfl⟩⟩

/-- What `Listen` does when the parent is a vehicle. -/
theorem LongRangeRadarSensor.Listen_vehicle [Field F] [CMath F]
    (self : LongRangeRadarSensor F) (callback : CallbackFunctionType F) (vehicle : Actor)
    (hvehicle : dynamic_pointer_cast_Vehicle self.GetParent = some vehicle) :
    self.Listen callback =
      { self with
        _callback_id := self.episode.counter + 1,
        episode :=
          if self._callback_id ≠ 0 then
            (self.episode.RegisterOnTickEvent
              (Listen.handler ⟨vehicle.GetId, callback⟩)).2.RemoveOnTickEvent self._callback_id
          else
            (self.episode.RegisterOnTickEvent (Listen.handler ⟨vehicle.GetId, callback⟩)).2 } := by
  unfold LongRangeRadarSensor.Listen
  rw [hvehicle]
  simp only [Episode.RegisterOnTickEvent]
  split_ifs <;> rfl

/-- The handlers registered after `Listen` on a sensor attached to a vehicle. -/
theorem LongRangeRadarSensor.Listen_callbacks [Field F] [CMath F]
    (self : LongRangeRadarSensor F) (callback : CallbackFunctionType F) (vehicle : Actor)
    (hvehicle : dynamic_pointer_cast_Vehicle self.GetParent = some vehicle) :
    (self.Listen callback)._callback_id = self.episode.counter + 1 ∧
    (self.Listen callback).GetParent = self.GetParent ∧
    (self.Listen callback).episode.counter = self.episode.counter + 1 ∧
    (self.Listen callback).episode.callbacks =
      (if self._callback_id ≠ 0 then
        (self.episode.callbacks
          ++ [(self.episode.counter + 1, Listen.handler ⟨vehicle.GetId, callback⟩)]).filter
            (fun e => e.1 != self._callback_id)
       else
        self.episode.callbacks
          ++ [(self.episode.counter + 1, Listen.handler ⟨vehicle.GetId, callback⟩)]) ∧
    (self.Listen callback).episode.calls =
      self.episode.calls ++ [EpisodeCall.RegisterOnTickEvent (self.episode.counter + 1)]
        ++ (if self._callback_id ≠ 0
            then [EpisodeCall.RemoveOnTickEvent self._callback_id] else []) := by
  rw [LongRangeRadarSensor.Listen_vehicle self callback vehicle hvehicle]
  refine ⟨rfl, rfl, ?_, ?_, ?_⟩
  · show (if _ then _ else _ : Episode F).counter = _
    split_ifs <;> rfl
  · show (if _ then _ else _ : Episode F).callbacks = _
    split_ifs <;> rfl
  · show (if _ then _ else _ : Episode F).calls = _
    split_ifs <;> simp [Episode.RegisterOnTickEvent, Episode.RemoveOnTickEvent]

/-- A tick source that has handed out fresh identifiers has not registered any identifier
above its counter, nor zero. -/
theorem Episode.Fresh.not_registered {episode : Episode F} (hfresh : episode.Fresh)
    (k : Nat) (hk : k = 0 ∨ episode.counter < k) : k ∉ episode.callbacks.map Prod.fst := by
  intro hmem
  have h := hfresh k hmem
  rcases hk with hk | hk
  · exact h.1 hk
  · exact absurd h.2 (Nat.not_le.mpr hk)

/-- Filtering out an identifier that is not registered, after other filtering. -/
theorem filter_filter_not_registered {α : Type} (l : List (Nat × α)) (j k : Nat)
    (hk : k ∉ l.map Prod.fst) :
    (l.filter (fun e => e.1 != j)).filter (fun e => e.1 != k)
      = l.filter (fun e => e.1 != j) := by
  apply filter_not_registered
  intro hmem
  apply hk
  rw [List.mem_map] at hmem ⊢
  obtain ⟨e, he, hek⟩ := hmem
  exact ⟨e, List.mem_of_mem_filter he, hek⟩

/-- The handlers left after `Listen` on a sensor attached to a vehicle, apart from the one
stored, are those that were there before apart from the one stored before; and the tick
source stays fresh. -/
theorem LongRangeRadarSensor.Listen_others [Field F] [CMath F]
    (self : LongRangeRadarSensor F) (callback : CallbackFunctionType F) (vehicle : Actor)
    (hvehicle : dynamic_pointer_cast_Vehicle self.GetParent = some vehicle)
    (hfresh : self.episode.Fresh) :
    (self.Listen callback).episode.Fresh ∧
    (self.Listen callback).episode.callbacks =
      self.episode.callbacks.filter (fun e => e.1 != self._callback_id)
        ++ (if self._callback_id = self.episode.counter + 1 then []
            else [(self.episode.counter + 1, Listen.handler ⟨vehicle.GetId, callback⟩)]) := by
  obtain ⟨_, _, hcounter, hcallbacks, _⟩ :=
    LongRangeRadarSensor.Listen_callbacks self callback vehicle hvehicle
  have hcbs : (self.Listen callback).episode.callbacks =
      self.episode.callbacks.filter (fun e => e.1 != self._callback_id)
        ++ (if self._callback_id = self.episode.counter + 1 then []
            else [(self.episode.counter + 1, Listen.handler ⟨vehicle.GetId, callback⟩)]) := by
    rw [hcallbacks]
    by_cases hid : self._callback_id = 0
    · have hne : ¬ (0 = self.episode.counter + 1) := by omega
      simp only [hid, ne_eq, not_true_eq_false, if_false, hne]
      rw [filter_not_registered _ 0 (hfresh.not_registered 0 (Or.inl rfl))]
    · simp only [ne_eq, hid, not_false_eq_true, if_true, List.filter_append]
      congr 1
      by_cases heq : self._callback_id = self.episode.counter + 1
      · simp [heq]
      · have hne : self.episode.counter + 1 ≠ self._callback_id := fun h => heq h.symm
        simp [heq, hne]
  refine ⟨?_, hcbs⟩
  intro id hmem
  rw [hcounter]
  unfold Episode.registered at hmem
  rw [hcbs, List.map_append, List.mem_append] at hmem
  rcases hmem with hmem | hmem
  · rw [List.mem_map] at hmem
    obtain ⟨e, he, rfl⟩ := hmem
    have h := hfresh e.1 (List.mem_map_of_mem Prod.fst (List.mem_of_mem_filter he))
    exact ⟨h.1, Nat.le_succ_of_le h.2⟩
  · split_ifs at hmem
    · simp at hmem
    · simp only [List.map_cons, List.map_nil, List.mem_singleton] at hmem
      subst hmem
      exact ⟨Nat.succ_ne_zero _, Nat.le_refl _⟩

/-- C3: for a sensor attached to a vehicle and a tick source that hands out fresh non-zero
identifiers, two `Listen` calls in succession, from any stored identifier, end with the
identifier of the second registration stored and registered exactly once, under the second
handler; the identifier of the first registration is no longer registered, and neither is the
identifier stored at the start; the handlers of other subscribers are as they were. The calls
received by the tick source show the first registration being removed after the second. -/
theorem LongRangeRadarSensor.Listen_twice_replaces [Field F] [CMath F]
    (self : LongRangeRadarSensor F) (first second : CallbackFunctionType F) (vehicle : Actor)
    (hvehicle : dynamic_pointer_cast_Vehicle self.GetParent = some vehicle)
    (hfresh : self.episode.Fresh) :
    (self.Listen first)._callback_id = self.episode.counter + 1 ∧
    ((self.Listen first).Listen second)._callback_id = self.episode.counter + 2 ∧
    ((self.Listen first).Listen second).episode.callbacks =
      self.episode.callbacks.filter (fun e => e.1 != self._callback_id)
        ++ [(self.episode.counter + 2, Listen.handler ⟨vehicle.GetId, second⟩)] ∧
    (self.episode.counter + 1) ∉ ((self.Listen first).Listen second).episode.registered ∧
    ((self.Listen first).Listen second).episode.registered.count (self.episode.counter + 2)
      = 1 ∧
    ((self.Listen first).Listen second).episode.calls =
      self.episode.calls ++ [EpisodeCall.RegisterOnTickEvent (self.episode.counter + 1)]
        ++ (if self._callback_id ≠ 0
            then [EpisodeCall.RemoveOnTickEvent self._callback_id] else [])
        ++ [EpisodeCall.RegisterOnTickEvent (self.episode.counter + 2),
            EpisodeCall.RemoveOnTickEvent (self.episode.counter + 1)] := by
  obtain ⟨hid1, hparent1, hcounter1, _, hcalls1⟩ :=
    LongRangeRadarSensor.Listen_callbacks self first vehicle hvehicle
  obtain ⟨hfresh1, hcbs1⟩ := LongRangeRadarSensor.Listen_others self first vehicle hvehicle hfresh
  have hvehicle1 : dynamic_pointer_cast_Vehicle (self.Listen first).GetParent = some vehicle := by
    rw [hparent1]
    exact hvehicle
  obtain ⟨hid2, _, _, _, hcalls2⟩ :=
    LongRangeRadarSensor.Listen_callbacks (self.Listen first) second vehicle hvehicle1
  obtain ⟨_, hcbs2⟩ :=
    LongRangeRadarSensor.Listen_others (self.Listen first) second vehicle hvehicle1 hfresh1
  have hnew1 : self.episode.counter + 1 ∉ self.episode.callbacks.map Prod.fst :=
    hfresh.not_registered _ (Or.inr (Nat.lt_succ_self _))
  have hnew2 : self.episode.counter + 2 ∉ self.episode.callbacks.map Prod.fst :=
    hfresh.not_registered _ (Or.inr (by omega))
  have hcbs : ((self.Listen first).Listen second).episode.callbacks =
      self.episode.callbacks.filter (fun e => e.1 != self._callback_id)
        ++ [(self.episode.counter + 2, Listen.handler ⟨vehicle.GetId, second⟩)] := by
    rw [hcbs2, hid1, hcounter1, hcbs1, List.filter_append,
      filter_filter_not_registered _ _ _ hnew1]
    have hne : ¬ (self.episode.counter + 1 = self.episode.counter + 1 + 1) := by omega
    rw [if_neg hne]
    congr 1
    split_ifs <;> simp
  have hreg : ((self.Listen first).Listen second).episode.registered =
      (self.episode.callbacks.filter (fun e => e.1 != self._callback_id)).map Prod.fst
        ++ [self.episode.counter + 2] := by
    unfold Episode.registered
    rw [hcbs]
    simp
  have hsub : ∀ k, k ∉ self.episode.callbacks.map Prod.fst →
      k ∉ (self.episode.callbacks.filter (fun e => e.1 != self._callback_id)).map Prod.fst := by
    intro k hk hmem
    apply hk
    rw [List.mem_map] at hmem ⊢
    obtain ⟨e, he, hek⟩ := hmem
    exact ⟨e, List.mem_of_mem_filter he, hek⟩
  refine ⟨hid1, ?_, hcbs, ?_, ?_, ?_⟩
  · rw [hid2, hcounter1]
  · rw [hreg, List.mem_append]
    rintro (hmem | hmem)
    · exact hsub _ hnew1 hmem
    · simp at hmem
  · rw [hreg, List.count_append, List.count_eq_zero_of_not_mem (hsub _ hnew2)]
    simp
  · rw [hcalls2, hcalls1, hid1, hcounter1]
    simp

/-- Instance of C3: the sample sensor on vehicle 7, whose tick source already serves two other
subscribers under the identifiers 1 and 2. -/
theorem LongRangeRadarSensor.Listen_twice_replaces_witness :
    (Sample.episode ℝ).Fresh ∧
    (((Sample.onVehicle ℝ).Listen (Sample.quiet ℝ)).Listen (Sample.throwsStd ℝ))._callback_id
      = 4 ∧
    (((Sample.onVehicle ℝ).Listen (Sample.quiet ℝ)).Listen
      (Sample.throwsStd ℝ)).episode.registered = [1, 2, 4] ∧
    (((Sample.onVehicle ℝ).Listen (Sample.quiet ℝ)).Listen
      (Sample.throwsStd ℝ)).episode.calls =
      [EpisodeCall.RegisterOnTickEvent 1, EpisodeCall.RegisterOnTickEvent 2,
       EpisodeCall.RegisterOnTickEvent 3, EpisodeCall.RegisterOnTickEvent 4,
       EpisodeCall.RemoveOnTickEvent 3] := by
  have hfresh : (Sample.episode ℝ).Fresh := by
    intro id hmem
    simp [Episode.registered, Sample.episode] at hmem
    rcases hmem with rfl | rfl <;> simp [Sample.episode]
  have h := LongRangeRadarSensor.Listen_twice_replaces (Sample.onVehicle ℝ) (Sample.quiet ℝ)
    (Sample.throwsStd ℝ) ⟨7, true⟩ rfl hfresh
  exact ⟨hfresh, h.2.1, by rw [Episode.registered, h.2.2.1]; rfl, h.2.2.2.2.2⟩

/-- After `Stop` with the tick source reachable, the handlers left are those that were there
apart from the one stored, and the tick source stays fresh. -/
theorem LongRangeRadarSensor.Stop_others (self : LongRangeRadarSensor F)
    (hfresh : self.episode.Fresh) :
    (self.Stop true).episode.Fresh ∧
    (self.Stop true)._callback_id = 0 ∧
    (self.Stop true).episode.callbacks =
      self.episode.callbacks.filter (fun e => e.1 != self._callback_id) := by
  by_cases hid : self._callback_id = 0
  · rw [LongRangeRadarSensor.Stop_idle self true (Or.inl hid), hid]
    refine ⟨hfresh, rfl, ?_⟩
    exact (filter_not_registered _ 0 (hfresh.not_registered 0 (Or.inl rfl))).symm
  · rw [LongRangeRadarSensor.Stop_subscribed self hid]
    refine ⟨?_, rfl, rfl⟩
    intro id hmem
    simp only [Episode.registered, Episode.RemoveOnTickEvent, List.mem_map] at hmem
    obtain ⟨e, he, rfl⟩ := hmem
    exact hfresh e.1 (List.mem_map_of_mem Prod.fst (List.mem_of_mem_filter he))

/-- One call keeps the tick source fresh and keeps the handlers other than the stored one. -/
theorem LongRangeRadarSensor.step_others [Field F] [CMath F]
    (self : LongRangeRadarSensor F) (op : Op F) (hfresh : self.episode.Fresh) :
    (self.step op).episode.Fresh ∧
    (self.step op).episode.callbacks.filter (fun e => e.1 != (self.step op)._callback_id)
      = self.episode.callbacks.filter (fun e => e.1 != self._callback_id) := by
  cases op with
  | Stop =>
    obtain ⟨hf, hid, hcbs⟩ := LongRangeRadarSensor.Stop_others self hfresh
    refine ⟨hf, ?_⟩
    show (self.Stop true).episode.callbacks.filter
      (fun e => e.1 != (self.Stop true)._callback_id) = _
    rw [hid, filter_not_registered _ 0 (hf.not_registered 0 (Or.inl rfl)), hcbs]
  | Listen callback =>
    show (self.Listen callback).episode.Fresh ∧
      (self.Listen callback).episode.callbacks.filter
        (fun e => e.1 != (self.Listen callback)._callback_id) = _
    cases hparent : dynamic_pointer_cast_Vehicle self.GetParent with
    | none =>
      rw [LongRangeRadarSensor.Listen_not_vehicle self callback hparent]
      exact ⟨hfresh, rfl⟩
    | some vehicle =>
      obtain ⟨hid, _, _, _, _⟩ :=
        LongRangeRadarSensor.Listen_callbacks self callback vehicle hparent
      obtain ⟨hf, hcbs⟩ := LongRangeRadarSensor.Listen_others self callback vehicle hparent hfresh
      refine ⟨hf, ?_⟩
      rw [hid, hcbs, List.filter_append, filter_filter_not_registered _ _ _
        (hfresh.not_registered _ (Or.inr (Nat.lt_succ_self _)))]
      split_ifs <;> simp

/-- Any sequence of calls keeps the tick source fresh and keeps the handlers other than the
stored one. -/
theorem LongRangeRadarSensor.run_others [Field F] [CMath F]
    (ops : List (Op F)) (self : LongRangeRadarSensor F) (hfresh : self.episode.Fresh) :
    (self.run ops).episode.Fresh ∧
    (self.run ops).episode.callbacks.filter (fun e => e.1 != (self.run ops)._callback_id)
      = self.episode.callbacks.filter (fun e => e.1 != self._callback_id) := by
  induction ops generalizing self with
  | nil => exact ⟨hfresh, rfl⟩
  | cons op ops ih =>
    obtain ⟨hf, hcbs⟩ := LongRangeRadarSensor.step_others self op hfresh
    obtain ⟨hf2, hcbs2⟩ := ih (self.step op) hf
    exact ⟨hf2, hcbs2.trans hcbs⟩

/-- A final `Stop` after any sequence of calls removes whatever the sensor has registered. -/
theorem LongRangeRadarSensor.run_then_Stop [Field F] [CMath F]
    (ops : List (Op F)) (self : LongRangeRadarSensor F) (hfresh : self.episode.Fresh) :
    ((self.run ops).Stop true)._callback_id = 0 ∧
    ((self.run ops).Stop true).episode.callbacks
      = self.episode.callbacks.filter (fun e => e.1 != self._callback_id) := by
  obtain ⟨hf, hcbs⟩ := LongRangeRadarSensor.run_others ops self hfresh
  obtain ⟨_, hid, hstop⟩ := LongRangeRadarSensor.Stop_others (self.run ops) hf
  exact ⟨hid, hstop.trans hcbs⟩

/-- C9: with the tick source reachable and handing out fresh identifiers, after any finite
sequence of `Listen` and `Stop` calls a final `Stop`, which is also what the destructor runs,
leaves the stored identifier zero and the tick source holding the handlers it held at the
start, apart from the one stored at the start: nothing the sensor registered is left. For a
sensor that was not listening at the start the handlers are exactly those of the start. In
particular this holds for `Listen` immediately followed by `Stop`. -/
theorem LongRangeRadarSensor.Stop_after_any_calls [Field F] [CMath F]
    (self : LongRangeRadarSensor F) (ops : List (Op F)) (hfresh : self.episode.Fresh) :
    ((self.run ops).Stop true)._callback_id = 0 ∧
    ((self.run ops).Stop true).episode.callbacks
      = self.episode.callbacks.filter (fun e => e.1 != self._callback_id) ∧
    (self._callback_id = 0 →
      ((self.run ops).Stop true).episode.callbacks = self.episode.callbacks) ∧
    (self.run ops).destroy true = (self.run ops).Stop true ∧
    ∀ callback : CallbackFunctionType F,
      ((self.Listen callback).Stop true)._callback_id = 0 ∧
      ((self.Listen callback).Stop true).episode.callbacks
        = self.episode.callbacks.filter (fun e => e.1 != self._callback_id) := by
  obtain ⟨hid, hcbs⟩ := LongRangeRadarSensor.run_then_Stop ops self hfresh
  refine ⟨hid, hcbs, ?_, rfl, ?_⟩
  · intro hzero
    rw [hcbs, hzero]
    exact filter_not_registered _ 0 (hfresh.not_registered 0 (Or.inl rfl))
  · intro callback
    exact LongRangeRadarSensor.run_then_Stop [Op.Listen callback] self hfresh

/-- Instance of C9: the sample sensor after `Listen`, `Listen`, `Stop`, `Listen`, then
destroyed: only the identifiers 1 and 2 of the other subscribers are registered. -/
theorem LongRangeRadarSensor.Stop_after_any_calls_witness :
    (((Sample.onVehicle ℝ).run
        [Op.Listen (Sample.quiet ℝ), Op.Listen (Sample.throwsStd ℝ), Op.Stop,
         Op.Listen (Sample.quiet ℝ)]).destroy true)._callback_id = 0 ∧
    (((Sample.onVehicle ℝ).run
        [Op.Listen (Sample.quiet ℝ), Op.Listen (Sample.throwsStd ℝ), Op.Stop,
         Op.Listen (Sample.quiet ℝ)]).destroy true).episode.registered = [1, 2] ∧
    (((Sample.onVehicle ℝ).run
        [Op.Listen (Sample.quiet ℝ), Op.Listen (Sample.throwsStd ℝ), Op.Stop,
         Op.Listen (Sample.quiet ℝ)]).destroy true).episode.callbacks
      = (Sample.onVehicle ℝ).episode.callbacks := by
  have hfresh : (Sample.onVehicle ℝ).episode.Fresh := by
    intro id hmem
    simp [Episode.registered, Sample.episode, Sample.onVehicle] at hmem
    rcases hmem with rfl | rfl <;> simp [Sample.episode, Sample.onVehicle]
  have h := LongRangeRadarSensor.Stop_after_any_calls (Sample.onVehicle ℝ)
    [Op.Listen (Sample.quiet ℝ), Op.Listen (Sample.throwsStd ℝ), Op.Stop,
     Op.Listen (Sample.quiet ℝ)] hfresh
  exact ⟨h.1, rfl, h.2.2.1 rfl⟩

/-! The handler registered by `Listen`. -/

/-- Counterexample to C6 as stated: the handler registered by `Listen` lets an exception that
is not a `std::exception` leave into the tick source's dispatch loop. On the sample sensor,
with a user callback that throws an `int`, the handler registered under identifier 3
propagates it and logs nothing. -/
theorem LongRangeRadarSensor.Listen_handler_propagates_other :
    ((Sample.onVehicle ℝ).Listen (Sample.throwsInt ℝ))._callback_id = 3 ∧
    ((Sample.onVehicle ℝ).Listen (Sample.throwsInt ℝ)).episode.callbacks.map
        (fun e => (e.1, (e.2 (Sample.snapshot ℝ [Sample.object345 ℝ])).propagated,
          (e.2 (Sample.snapshot ℝ [Sample.object345 ℝ])).logged))
      = [(1, none, []), (2, none, []), (3, some (Thrown.other 0), [])] :=
  ⟨rfl, rfl⟩

/-! The reachable states of the sequential life cycle. -/

/-- The identifiers left registered after a removal. -/
theorem registered_filter (callbacks : List (Nat × OnTickHandler F)) (k : Nat) :
    (callbacks.filter (fun e => e.1 != k)).map Prod.fst
      = (callbacks.map Prod.fst).filter (fun id => id != k) := by
  induction callbacks with
  | nil => rfl
  | cons e rest ih =>
    by_cases h : e.1 = k
    · simp [List.filter_cons, h, ih]
    · simp [List.filter_cons, h, ih]

/-- Filtering a list of identifiers by an identifier that is not in it changes nothing. -/
theorem filter_ne_of_not_mem (l : List Nat) (k : Nat) (hk : k ∉ l) :
    l.filter (fun id => id != k) = l := by
  rw [List.filter_eq_self]
  intro id hid
  have hne : id ≠ k := fun h => hk (h ▸ hid)
  simpa using hne

/-- One call keeps the shape "the identifiers of the others, then the stored identifier if it
is non-zero" of the registered identifiers. -/
theorem LongRangeRadarSensor.step_own [Field F] [CMath F] (base : List Nat)
    (self : LongRangeRadarSensor F) (op : Op F) (hfresh : self.episode.Fresh)
    (hown : self.episode.registered
      = base ++ (if self._callback_id = 0 then [] else [self._callback_id]))
    (hbase : self._callback_id ∉ base) :
    (self.step op).episode.Fresh ∧
    (self.step op).episode.registered
      = base ++ (if (self.step op)._callback_id = 0 then [] else [(self.step op)._callback_id]) ∧
    (self.step op)._callback_id ∉ base := by
  have hsub : ∀ k, k ∉ self.episode.callbacks.map Prod.fst → k ∉ base := by
    intro k hk hmem
    apply hk
    show k ∈ self.episode.registered
    rw [hown]
    exact List.mem_append_left _ hmem
  have hzero : (0 : Nat) ∉ base := hsub 0 (hfresh.not_registered 0 (Or.inl rfl))
  cases op with
  | Stop =>
    obtain ⟨hf, hid, hcbs⟩ := LongRangeRadarSensor.Stop_others self hfresh
    show (self.Stop true).episode.Fresh ∧
      (self.Stop true).episode.registered
        = base ++ (if (self.Stop true)._callback_id = 0 then []
            else [(self.Stop true)._callback_id]) ∧
      (self.Stop true)._callback_id ∉ base
    refine ⟨hf, ?_, by rw [hid]; exact hzero⟩
    rw [hid, if_pos rfl, List.append_nil]
    unfold Episode.registered
    rw [hcbs, registered_filter]
    show List.filter _ self.episode.registered = base
    rw [hown, List.filter_append, filter_ne_of_not_mem base _ hbase]
    by_cases h0 : self._callback_id = 0
    · simp [h0]
    · simp [h0]
  | Listen callback =>
    show (self.Listen callback).episode.Fresh ∧
      (self.Listen callback).episode.registered
        = base ++ (if (self.Listen callback)._callback_id = 0 then []
            else [(self.Listen callback)._callback_id]) ∧
      (self.Listen callback)._callback_id ∉ base
    cases hparent : dynamic_pointer_cast_Vehicle self.GetParent with
    | none =>
      rw [LongRangeRadarSensor.Listen_not_vehicle self callback hparent]
      exact ⟨hfresh, hown, hbase⟩
    | some vehicle =>
      obtain ⟨hid, _, _, _, _⟩ :=
        LongRangeRadarSensor.Listen_callbacks self callback vehicle hparent
      obtain ⟨hf, hcbs⟩ := LongRangeRadarSensor.Listen_others self callback vehicle hparent hfresh
      have hnew : self.episode.counter + 1 ∉ self.episode.callbacks.map Prod.fst :=
        hfresh.not_registered _ (Or.inr (Nat.lt_succ_self _))
      have hne : self._callback_id ≠ self.episode.counter + 1 := by
        intro heq
        by_cases h0 : self._callback_id = 0
        · omega
        · apply hnew
          show self.episode.counter + 1 ∈ self.episode.registered
          rw [hown, if_neg h0, ← heq]
          exact List.mem_append_right _ (List.mem_singleton.mpr rfl)
      refine ⟨hf, ?_, by rw [hid]; exact hsub _ hnew⟩
      rw [hid, if_neg (Nat.succ_ne_zero _)]
      unfold Episode.registered
      rw [hcbs, if_neg hne, List.map_append, registered_filter]
      show List.filter _ self.episode.registered ++ _ = _
      rw [hown, List.filter_append, filter_ne_of_not_mem base _ hbase]
      by_cases h0 : self._callback_id = 0
      · simp [h0]
      · simp [h0]

/-- Any sequence of calls keeps the shape "the identifiers of the others, then the stored
identifier if it is non-zero" of the registered identifiers. -/
theorem LongRangeRadarSensor.run_own [Field F] [CMath F] (base : List Nat) (ops : List (Op F))
    (self : LongRangeRadarSensor F) (hfresh : self.episode.Fresh)
    (hown : self.episode.registered
      = base ++ (if self._callback_id = 0 then [] else [self._callback_id]))
    (hbase : self._callback_id ∉ base) :
    (self.run ops).episode.registered
      = base ++ (if (self.run ops)._callback_id = 0 then [] else [(self.run ops)._callback_id]) := by
  induction ops generalizing self with
  | nil => exact hown
  | cons op ops ih =>
    obtain ⟨hf, ho, hb⟩ := LongRangeRadarSensor.step_own base self op hfresh hown hbase
    exact ih (self.step op) hf ho hb

/-- C11: starting from stored identifier zero and a tick source without registrations, after
every sequence of completed `Listen` and `Stop` calls the registered identifiers are just the
stored identifier when it is non-zero, and none when it is zero: at most one subscription is
registered, and the stored identifier is non-zero exactly when one is, in which case it is
that subscription's identifier. -/
theorem LongRangeRadarSensor.run_at_most_one_subscription [Field F] [CMath F]
    (self : LongRangeRadarSensor F) (ops : List (Op F))
    (hzero : self._callback_id = 0) (hnone : self.episode.callbacks = []) :
    (self.run ops).episode.registered
      = (if (self.run ops)._callback_id = 0 then [] else [(self.run ops)._callback_id]) ∧
    (self.run ops).episode.registered.length ≤ 1 ∧
    ((self.run ops)._callback_id ≠ 0 ↔ (self.run ops).episode.registered ≠ []) ∧
    ∀ id ∈ (self.run ops).episode.registered, id = (self.run ops)._callback_id := by
  have hfresh : self.episode.Fresh := by
    intro id hmem
    simp [Episode.registered, hnone] at hmem
  have hreg := LongRangeRadarSensor.run_own [] ops self hfresh
    (by simp [Episode.registered, hnone, hzero]) (List.not_mem_nil _)
  rw [List.nil_append] at hreg
  refine ⟨hreg, ?_, ?_, ?_⟩
  · rw [hreg]
    split_ifs <;> simp
  · rw [hreg]
    split_ifs with h <;> simp [h]
  · intro id hid
    rw [hreg] at hid
    split_ifs at hid
    · simp at hid
    · exact List.mem_singleton.mp hid

/-- Instance of C11: the sample sensor alone on its tick source, after `Listen`, `Listen`,
`Stop`, `Listen` (identifier 3 stored and registered) and after a further `Stop`. -/
theorem LongRangeRadarSensor.run_at_most_one_subscription_witness :
    ((Sample.alone ℝ).run
      [Op.Listen (Sample.quiet ℝ), Op.Listen (Sample.throwsStd ℝ), Op.Stop,
       Op.Listen (Sample.quiet ℝ)])._callback_id = 3 ∧
    ((Sample.alone ℝ).run
      [Op.Listen (Sample.quiet ℝ), Op.Listen (Sample.throwsStd ℝ), Op.Stop,
       Op.Listen (Sample.quiet ℝ)]).episode.registered = [3] ∧
    ((Sample.alone ℝ).run
      [Op.Listen (Sample.quiet ℝ), Op.Listen (Sample.throwsStd ℝ), Op.Stop,
       Op.Listen (Sample.quiet ℝ), Op.Stop]).episode.registered = [] :=
  ⟨rfl,
   (LongRangeRadarSensor.run_at_most_one_subscription (Sample.alone ℝ)
      [Op.Listen (Sample.quiet ℝ), Op.Listen (Sample.throwsStd ℝ), Op.Stop,
       Op.Listen (Sample.quiet ℝ)] rfl rfl).1,
   (LongRangeRadarSensor.run_at_most_one_subscription (Sample.alone ℝ)
      [Op.Listen (Sample.quiet ℝ), Op.Listen (Sample.throwsStd ℝ), Op.Stop,
       Op.Listen (Sample.quiet ℝ), Op.Stop] rfl rfl).1⟩

/-! Geometry of the data points, over the reals. -/

/-- Over the reals the azimuth of a data point is the argument of the horizontal offset
(object − parent) as a complex number, in degrees. -/
theorem RadarCallback.dataPoint_azimuth (parent : ActorSnapshot ℝ) (object : DetectedObject ℝ) :
    (RadarCallback.dataPoint parent object).azimuth
      = Complex.arg ⟨object.GetLocation.x - parent.GetLocation.x,
          object.GetLocation.y - parent.GetLocation.y⟩ * (180 / Real.pi) :=
  rfl

/-- C18: over the reals `Rotate yaw p` is
`(cos θ · p.x − sin θ · p.y, sin θ · p.x + cos θ · p.y, p.z)` with `θ = yaw · π / 180`, for
every yaw and every location: z is returned unchanged, yaw 0 is the identity, and yaw 90
sends (1, 0, z) to (0, 1, z). -/
theorem Rotate_real (yaw : ℝ) (p : geom.Location ℝ) :
    Rotate yaw p =
      { x := Real.cos (yaw * Real.pi / 180) * p.x - Real.sin (yaw * Real.pi / 180) * p.y,
        y := Real.sin (yaw * Real.pi / 180) * p.x + Real.cos (yaw * Real.pi / 180) * p.y,
        z := p.z } ∧
    (Rotate yaw p).z = p.z ∧
    Rotate 0 p = p ∧
    Rotate 90 { x := 1, y := 0, z := p.z } = ({ x := 0, y := 1, z := p.z } : geom.Location ℝ) := by
  have hformula : ∀ (a : ℝ) (q : geom.Location ℝ), Rotate a q =
      { x := Real.cos (a * Real.pi / 180) * q.x - Real.sin (a * Real.pi / 180) * q.y,
        y := Real.sin (a * Real.pi / 180) * q.x + Real.cos (a * Real.pi / 180) * q.y,
        z := q.z } := by
    intro a q
    have hangle : a * (Real.pi / 180) = a * Real.pi / 180 := by ring
    show ({ x := Real.cos (a * (Real.pi / 180)) * q.x - Real.sin (a * (Real.pi / 180)) * q.y,
            y := Real.sin (a * (Real.pi / 180)) * q.x + Real.cos (a * (Real.pi / 180)) * q.y,
            z := q.z } : geom.Location ℝ) = _
    rw [hangle]
  refine ⟨hformula yaw p, rfl, ?_, ?_⟩
  · rw [hformula]
    cases p
    simp
  · rw [hformula]
    have hquarter : (90 : ℝ) * Real.pi / 180 = Real.pi / 2 := by ring
    rw [hquarter, Real.cos_pi_div_two, Real.sin_pi_div_two]
    simp

/-- The data point of a translated object seen from the equally translated parent. -/
theorem RadarCallback.dataPoint_translate (t : geom.Vector3D ℝ) (parent : ActorSnapshot ℝ)
    (object : DetectedObject ℝ) :
    RadarCallback.dataPoint (translateActor t parent) (translateObject t object)
      = { RadarCallback.dataPoint parent object with
          location := translate t object.GetLocation } := by
  have hx : object.GetLocation.x + t.x - (parent.GetLocation.x + t.x)
      = object.GetLocation.x - parent.GetLocation.x := by ring
  have hy : object.GetLocation.y + t.y - (parent.GetLocation.y + t.y)
      = object.GetLocation.y - parent.GetLocation.y := by ring
  have hz : object.GetLocation.z + t.z - (parent.GetLocation.z + t.z)
      = object.GetLocation.z - parent.GetLocation.z := by ring
  show ({ location := translate t object.GetLocation,
          relative_velocity := object.GetVelocity.Length,
          distance := Real.sqrt
            ((object.GetLocation.x + t.x - (parent.GetLocation.x + t.x))
                * (object.GetLocation.x + t.x - (parent.GetLocation.x + t.x))
              + (object.GetLocation.y + t.y - (parent.GetLocation.y + t.y))
                * (object.GetLocation.y + t.y - (parent.GetLocation.y + t.y))
              + (object.GetLocation.z + t.z - (parent.GetLocation.z + t.z))
                * (object.GetLocation.z + t.z - (parent.GetLocation.z + t.z))),
          azimuth := Complex.arg ⟨object.GetLocation.x + t.x - (parent.GetLocation.x + t.x),
              object.GetLocation.y + t.y - (parent.GetLocation.y + t.y)⟩
            * (180 / Real.pi) } : RadarDataPoint ℝ) = _
  rw [hx, hy, hz]
  rfl

/-- C19: the measurement depends on positions only through the offset object − parent. For
every translation vector `t`, moving the parent and every detected object by `t` leaves each
data point's distance, azimuth and relative velocity unchanged and shifts its reported
location by `t`; so the data points of the moved scene are those of the original scene with
the locations shifted. Coordinates are reals. -/
theorem RadarCallback.collect_translate (t : geom.Vector3D ℝ) (parent : ActorSnapshot ℝ) :
    (∀ object : DetectedObject ℝ,
      (RadarCallback.dataPoint (translateActor t parent) (translateObject t object)).distance
        = (RadarCallback.dataPoint parent object).distance ∧
      (RadarCallback.dataPoint (translateActor t parent) (translateObject t object)).azimuth
        = (RadarCallback.dataPoint parent object).azimuth ∧
      (RadarCallback.dataPoint (translateActor t parent) (translateObject t object)).relative_velocity
        = (RadarCallback.dataPoint parent object).relative_velocity ∧
      (RadarCallback.dataPoint (translateActor t parent) (translateObject t object)).location
        = translate t (RadarCallback.dataPoint parent object).location) ∧
    RadarCallback.collect (translateActor t parent)
      = (RadarCallback.collect parent).map
          (fun point => { point with location := translate t point.location }) := by
  constructor
  · intro object
    rw [RadarCallback.dataPoint_translate]
    exact ⟨rfl, rfl, rfl, rfl⟩
  · rw [RadarCallback.collect_eq_map, RadarCallback.collect_eq_map]
    show List.map (RadarCallback.dataPoint (translateActor t parent))
        (parent.GetDetectedObjects.map (translateObject t)) = _
    rw [List.map_map, List.map_map]
    apply List.map_congr_left
    intro object _
    exact RadarCallback.dataPoint_translate t parent object

/-! The azimuth and the parent's orientation. -/

/-- Counterexample to C15 as stated: turning the parent's yaw does not change the reported
azimuth. With the parent at the origin and an object at (0, 1, 0), the azimuth is 90 when the
parent's yaw is 0 and still 90 when the parent's yaw is 90. -/
theorem RadarCallback.Tick_azimuth_same_for_yaw_0_and_90 :
    (RadarCallback.Tick ⟨7, Sample.quiet ℝ⟩
        (Sample.snapshotFacing ℝ 0 [Sample.objectLeft ℝ])).delivered.map
      (fun event => (event.sensor_transform.rotation.yaw,
        event.GetRadarData.map (fun point => point.azimuth))) = [(0, [90])] ∧
    (RadarCallback.Tick ⟨7, Sample.quiet ℝ⟩
        (Sample.snapshotFacing ℝ 90 [Sample.objectLeft ℝ])).delivered.map
      (fun event => (event.sensor_transform.rotation.yaw,
        event.GetRadarData.map (fun point => point.azimuth))) = [(90, [90])] := by
  have hazimuth : ∀ parent : ActorSnapshot ℝ,
      parent.GetLocation = { x := 0, y := 0, z := 0 } →
      (RadarCallback.dataPoint parent (Sample.objectLeft ℝ)).azimuth = 90 := by
    intro parent hloc
    rw [RadarCallback.dataPoint_azimuth, hloc]
    have harg : (⟨(Sample.objectLeft ℝ).GetLocation.x - 0,
        (Sample.objectLeft ℝ).GetLocation.y - 0⟩ : ℂ) = Complex.I := by
      apply Complex.ext <;> simp [Sample.objectLeft]
    rw [harg, Complex.arg_I]
    have hpi : Real.pi ≠ 0 := Real.pi_ne_zero
    field_simp
    ring
  constructor
  · rw [RadarCallback.Tick_found ⟨7, Sample.quiet ℝ⟩
      (Sample.snapshotFacing ℝ 0 [Sample.objectLeft ℝ]) _ rfl]
    show [((0 : ℝ), [(RadarCallback.dataPoint _ (Sample.objectLeft ℝ)).azimuth])] = [(0, [90])]
    rw [hazimuth]
    all_goals rfl
  · rw [RadarCallback.Tick_found ⟨7, Sample.quiet ℝ⟩
      (Sample.snapshotFacing ℝ 90 [Sample.objectLeft ℝ]) _ rfl]
    show [((90 : ℝ), [(RadarCallback.dataPoint _ (Sample.objectLeft ℝ)).azimuth])]
      = [(90, [90])]
    rw [hazimuth]
    all_goals rfl

/-- C15, amended: the azimuth of each data point is measured relative to the parent's
location as read from the snapshot being processed, along the world axes: it is the angle
`atan2(Δy, Δx)` in degrees of the offset object − parent, and the parent's transform, its
orientation included, does not enter it: with any other transform the data points are the
same. Coordinates are reals. -/
theorem RadarCallback.Tick_azimuth_world_frame
    (self : RadarCallback ℝ) (snapshot : WorldSnapshot ℝ) (parent : ActorSnapshot ℝ)
    (hfind : snapshot.Find self._parent = some parent) :
    ∃ event : LongRangeRadarEvent ℝ,
      (self.Tick snapshot).delivered = [event] ∧
      (∀ (i : Nat) (object : DetectedObject ℝ),
        parent.GetDetectedObjects[i]? = some object →
        ∃ point : RadarDataPoint ℝ,
          event.GetRadarData[i]? = some point ∧
          point.azimuth =
            Complex.arg ⟨object.GetLocation.x - parent.GetLocation.x,
              object.GetLocation.y - parent.GetLocation.y⟩ * (180 / Real.pi)) ∧
      ∀ transform : geom.Transform ℝ,
        RadarCallback.collect { parent with GetTransform := transform } = event.GetRadarData := by
  rw [RadarCallback.Tick_found self snapshot parent hfind]
  refine ⟨_, rfl, ?_, ?_⟩
  · intro i object hobj
    refine ⟨RadarCallback.dataPoint parent object, ?_, RadarCallback.dataPoint_azimuth _ _⟩
    simp [LongRangeRadarEvent.GetRadarData, List.getElem?_map, hobj]
  · intro transform
    rw [RadarCallback.collect_eq_map]
    rfl

/-- Instance of C15 as amended: the sample parent with yaw 90 and with its transform replaced
by one with yaw 0 yields the same data points. -/
theorem RadarCallback.Tick_azimuth_world_frame_witness :
    ∃ event : LongRangeRadarEvent ℝ,
      (RadarCallback.Tick ⟨7, Sample.quiet ℝ⟩
        (Sample.snapshot ℝ [Sample.objectLeft ℝ])).delivered = [event] ∧
      RadarCallback.collect
        { Sample.parent ℝ [Sample.objectLeft ℝ] with
          GetTransform :=
            { location := { x := 0, y := 0, z := 0 },
              rotation := { pitch := 0, yaw := 0, roll := 0 } } } = event.GetRadarData := by
  obtain ⟨event, hdel, _, hsame⟩ :=
    RadarCallback.Tick_azimuth_world_frame ⟨7, Sample.quiet ℝ⟩
      (Sample.snapshot ℝ [Sample.objectLeft ℝ]) (Sample.parent ℝ [Sample.objectLeft ℝ]) rfl
  exact ⟨event, hdel, hsame _⟩

/-! Failures while handling one detected object. -/

/-- When no object from position `i` on fails, the loop pushes the data point of every object,
in order. -/
theorem RadarCallback.collectOrThrow_ok [Field F] [CMath F] (failure : Nat → Option Thrown)
    (parent : ActorSnapshot F) (objects : List (DetectedObject F)) (i : Nat)
    (radar_data : List (RadarDataPoint F))
    (hnone : ∀ j, j < objects.length → failure (i + j) = none) :
    RadarCallback.collectOrThrow failure parent objects i radar_data
      = Except.ok (radar_data ++ objects.map (RadarCallback.dataPoint parent)) := by
  induction objects generalizing i radar_data with
  | nil => simp [RadarCallback.collectOrThrow]
  | cons object rest ih =>
    have h0 : failure i = none := by
      have h := hnone 0 (by simp)
      simpa using h
    have hrest : ∀ j, j < rest.length → failure (i + 1 + j) = none := by
      intro j hj
      have h := hnone (j + 1) (by simp [hj])
      rw [← h]
      congr 1
      omega
    simp only [RadarCallback.collectOrThrow, h0]
    rw [ih (i + 1) _ hrest]
    simp

/-- The states `Listen` passes through on a sensor attached to a vehicle whose stored
identifier is non-zero. -/
theorem LongRangeRadarSensor.ListenStates_listening [Field F] [CMath F]
    (self : LongRangeRadarSensor F) (callback : CallbackFunctionType F) (vehicle : Actor)
    (hvehicle : dynamic_pointer_cast_Vehicle self.GetParent = some vehicle)
    (hid : self._callback_id ≠ 0) :
    self.ListenStates callback =
      [self,
       { self with
         episode :=
           (self.episode.RegisterOnTickEvent (Listen.handler ⟨vehicle.GetId, callback⟩)).2 },
       { self with
         _callback_id := self.episode.counter + 1,
         episode :=
           (self.episode.RegisterOnTickEvent (Listen.handler ⟨vehicle.GetId, callback⟩)).2 },
       { self with
         _callback_id := self.episode.counter + 1,
         episode :=
           (self.episode.RegisterOnTickEvent
             (Listen.handler ⟨vehicle.GetId, callback⟩)).2.RemoveOnTickEvent
               self._callback_id }] := by
  unfold LongRangeRadarSensor.ListenStates
  rw [hvehicle]
  simp only [ne_eq, hid, not_false_eq_true, if_true]
  rfl

/-- The last of the states `Listen` passes through is the state `Listen` returns. -/
theorem LongRangeRadarSensor.ListenStates_last [Field F] [CMath F]
    (self : LongRangeRadarSensor F) (callback : CallbackFunctionType F) :
    (self.ListenStates callback).getLast? = some (self.Listen callback) := by
  unfold LongRangeRadarSensor.ListenStates LongRangeRadarSensor.Listen
  cases dynamic_pointer_cast_Vehicle self.GetParent with
  | none => rfl
  | some vehicle =>
    by_cases hid : self._callback_id = 0
    · simp [hid]
    · simp [hid]

/-- C20: on a `Listen` call on a sensor attached to a vehicle that is already listening (its
stored identifier is non-zero and registered), the new handler is registered before the
previous one is removed: the call passes through four states, the last being the state
`Listen` returns, and in each of them the stored identifier is non-zero and registered, so at
least one subscription of the sensor is registered throughout. The tick source receives a
single removal, after the registration, and it is for the identifier that was stored when
the exchange happened. -/
theorem LongRangeRadarSensor.Listen_registers_before_removing [Field F] [CMath F]
    (self : LongRangeRadarSensor F) (callback : CallbackFunctionType F) (vehicle : Actor)
    (hvehicle : dynamic_pointer_cast_Vehicle self.GetParent = some vehicle)
    (hfresh : self.episode.Fresh)
    (hid : self._callback_id ≠ 0) (hlistening : self._callback_id ∈ self.episode.registered) :
    (self.ListenStates callback).getLast? = some (self.Listen callback) ∧
    (self.ListenStates callback).map
        (fun s => (s._callback_id, s.episode.registered, s.episode.calls)) =
      [(self._callback_id, self.episode.registered, self.episode.calls),
       (self._callback_id, self.episode.registered ++ [self.episode.counter + 1],
        self.episode.calls ++ [EpisodeCall.RegisterOnTickEvent (self.episode.counter + 1)]),
       (self.episode.counter + 1, self.episode.registered ++ [self.episode.counter + 1],
        self.episode.calls ++ [EpisodeCall.RegisterOnTickEvent (self.episode.counter + 1)]),
       (self.episode.counter + 1,
        self.episode.registered.filter (fun id => id != self._callback_id)
          ++ [self.episode.counter + 1],
        self.episode.calls ++ [EpisodeCall.RegisterOnTickEvent (self.episode.counter + 1),
          EpisodeCall.RemoveOnTickEvent self._callback_id])] ∧
    (∀ s ∈ self.ListenStates callback,
      s._callback_id ≠ 0 ∧ s._callback_id ∈ s.episode.registered) ∧
    (∀ s ∈ self.ListenStates callback,
      s.episode.removals = self.episode.removals ∨
      s.episode.removals = self.episode.removals ++ [self._callback_id]) := by
  have hnew : self.episode.counter + 1 ∉ self.episode.callbacks.map Prod.fst :=
    hfresh.not_registered _ (Or.inr (Nat.lt_succ_self _))
  have hne : self.episode.counter + 1 ≠ self._callback_id := fun h => hnew (h ▸ hlistening)
  have hreg : ((self.episode.RegisterOnTickEvent
      (Listen.handler ⟨vehicle.GetId, callback⟩)).2.RemoveOnTickEvent
        self._callback_id).registered
      = self.episode.registered.filter (fun id => id != self._callback_id)
        ++ [self.episode.counter + 1] := by
    simp only [Episode.registered, Episode.RemoveOnTickEvent, Episode.RegisterOnTickEvent,
      registered_filter, List.map_append, List.filter_append, List.map_cons, List.map_nil]
    simp [hne]
  refine ⟨LongRangeRadarSensor.ListenStates_last self callback, ?_, ?_, ?_⟩
  · rw [LongRangeRadarSensor.ListenStates_listening self callback vehicle hvehicle hid]
    simp only [List.map_cons, List.map_nil, hreg]
    simp [Episode.registered, Episode.RegisterOnTickEvent, Episode.RemoveOnTickEvent]
  · intro s hs
    rw [LongRangeRadarSensor.ListenStates_listening self callback vehicle hvehicle hid] at hs
    simp only [List.mem_cons, List.mem_singleton, List.not_mem_nil, or_false] at hs
    rcases hs with rfl | rfl | rfl | rfl
    · exact ⟨hid, hlistening⟩
    · refine ⟨hid, ?_⟩
      show self._callback_id ∈ List.map Prod.fst (self.episode.callbacks ++ _)
      rw [List.map_append]
      exact List.mem_append_left _ hlistening
    · refine ⟨Nat.succ_ne_zero _, ?_⟩
      show self.episode.counter + 1 ∈ List.map Prod.fst (self.episode.callbacks ++ _)
      simp
    · refine ⟨Nat.succ_ne_zero _, ?_⟩
      show self.episode.counter + 1 ∈ Episode.registered _
      rw [hreg]
      simp
  · intro s hs
    rw [LongRangeRadarSensor.ListenStates_listening self callback vehicle hvehicle hid] at hs
    simp only [List.mem_cons, List.mem_singleton, List.not_mem_nil, or_false] at hs
    rcases hs with rfl | rfl | rfl | rfl
    · exact Or.inl rfl
    · left
      simp [Episode.removals, Episode.RegisterOnTickEvent, removals_append]
    · left
      simp [Episode.removals, Episode.RegisterOnTickEvent, removals_append]
    · right
      simp [Episode.removals, Episode.RegisterOnTickEvent, Episode.RemoveOnTickEvent,
        List.filterMap_append]

/-- Instance of C20: the sample sensor that is listening under identifier 2 on a tick source
that also serves identifier 1: the identifiers registered in the four states of `Listen`. -/
theorem LongRangeRadarSensor.Listen_registers_before_removing_witness :
    ((Sample.listening ℝ).ListenStates (Sample.quiet ℝ)).map
        (fun s => (s._callback_id, s.episode.registered))
      = [(2, [1, 2]), (2, [1, 2, 3]), (3, [1, 2, 3]), (3, [1, 3])] ∧
    (∀ s ∈ (Sample.listening ℝ).ListenStates (Sample.quiet ℝ),
      s._callback_id ≠ 0 ∧ s._callback_id ∈ s.episode.registered) ∧
    ((Sample.listening ℝ).Listen (Sample.quiet ℝ)).episode.calls
      = [EpisodeCall.RegisterOnTickEvent 1, EpisodeCall.RegisterOnTickEvent 2,
         EpisodeCall.RegisterOnTickEvent 3, EpisodeCall.RemoveOnTickEvent 2] := by
  have hfresh : (Sample.listening ℝ).episode.Fresh := by
    intro id hmem
    simp [Episode.registered, Sample.episode, Sample.listening] at hmem
    rcases hmem with rfl | rfl <;> simp [Sample.episode, Sample.listening]
  have h := LongRangeRadarSensor.Listen_registers_before_removing (Sample.listening ℝ)
    (Sample.quiet ℝ) ⟨7, true⟩ rfl hfresh (by decide) (by decide)
  exact ⟨rfl, h.2.2.1, rfl⟩

/-! The handler registered by `Listen`, with failures of the measurement taken into account. -/

/-- When handling no object fails, `TickOrThrow` is `Tick`. -/
theorem RadarCallback.TickOrThrow_no_failure [Field F] [CMath F] (self : RadarCallback F)
    (snapshot : WorldSnapshot F) :
    self.TickOrThrow (fun _ => none) snapshot = self.Tick snapshot := by
  unfold RadarCallback.TickOrThrow RadarCallback.Tick
  cases hfind : snapshot.Find self._parent with
  | none => rfl
  | some parent =>
    have hres := RadarCallback.collectOrThrow_ok (fun _ => none) parent
      parent.GetDetectedObjects 0 [] (fun _ _ => rfl)
    simp only [hres, List.nil_append, RadarCallback.collect_eq_map]

/-- C6, amended: the handler that `Listen` registers with the tick source never propagates a
`std::exception`. For a sensor attached to a vehicle `Listen` adds one handler, under the
identifier it stores. On every snapshot, whatever the failures met while the measurement is
computed (`failure`) and whatever the user callback does, the handler delivers what `Tick`
delivered and: when a `std::exception` leaves `Tick`, raised while computing the measurement
or inside the user callback, it logs its `what()` text and returns normally; when nothing
leaves `Tick` it logs nothing and returns normally; an object of another type is not caught.
Without failures of the measurement this is the handler around `Tick` itself. -/
theorem LongRangeRadarSensor.Listen_handler_catches_std_exception [Field F] [CMath F]
    (self : LongRangeRadarSensor F) (callback : CallbackFunctionType F) (vehicle : Actor)
    (hvehicle : dynamic_pointer_cast_Vehicle self.GetParent = some vehicle) :
    (∀ e ∈ (self.Listen callback).episode.callbacks,
      e ∈ self.episode.callbacks ∨
      e = ((self.Listen callback)._callback_id, Listen.handler ⟨vehicle.GetId, callback⟩)) ∧
    (self._callback_id ≠ (self.Listen callback)._callback_id →
      ((self.Listen callback)._callback_id, Listen.handler ⟨vehicle.GetId, callback⟩)
        ∈ (self.Listen callback).episode.callbacks) ∧
    (∀ snapshot : WorldSnapshot F,
      Listen.handler ⟨vehicle.GetId, callback⟩ snapshot
        = Listen.handlerOrThrow (fun _ => none) ⟨vehicle.GetId, callback⟩ snapshot ∧
      RadarCallback.Tick ⟨vehicle.GetId, callback⟩ snapshot
        = RadarCallback.TickOrThrow (fun _ => none) ⟨vehicle.GetId, callback⟩ snapshot) ∧
    ∀ (failure : Nat → Option Thrown) (snapshot : WorldSnapshot F),
      (Listen.handlerOrThrow failure ⟨vehicle.GetId, callback⟩ snapshot).delivered
        = (RadarCallback.TickOrThrow failure ⟨vehicle.GetId, callback⟩ snapshot).delivered ∧
      (∀ what : String,
        (RadarCallback.TickOrThrow failure ⟨vehicle.GetId, callback⟩ snapshot).thrown
            = some (Thrown.stdException what) →
        (Listen.handlerOrThrow failure ⟨vehicle.GetId, callback⟩ snapshot).propagated = none ∧
        (Listen.handlerOrThrow failure ⟨vehicle.GetId, callback⟩ snapshot).logged
            = [["LongRangeRadarSensor:", what]]) ∧
      ((RadarCallback.TickOrThrow failure ⟨vehicle.GetId, callback⟩ snapshot).thrown = none →
        (Listen.handlerOrThrow failure ⟨vehicle.GetId, callback⟩ snapshot).propagated = none ∧
        (Listen.handlerOrThrow failure ⟨vehicle.GetId, callback⟩ snapshot).logged = []) ∧
      (∀ tag : Nat,
        (RadarCallback.TickOrThrow failure ⟨vehicle.GetId, callback⟩ snapshot).thrown
            = some (Thrown.other tag) →
        (Listen.handlerOrThrow failure ⟨vehicle.GetId, callback⟩ snapshot).propagated
            = some (Thrown.other tag) ∧
        (Listen.handlerOrThrow failure ⟨vehicle.GetId, callback⟩ snapshot).logged = []) := by
  obtain ⟨hid, _, _, hcallbacks, _⟩ :=
    LongRangeRadarSensor.Listen_callbacks self callback vehicle hvehicle
  refine ⟨?_, ?_, ?_, ?_⟩
  · intro e he
    rw [hcallbacks] at he
    rw [hid]
    have hmem : e ∈ self.episode.callbacks
        ++ [(self.episode.counter + 1, Listen.handler ⟨vehicle.GetId, callback⟩)] := by
      split_ifs at he
      · exact List.mem_of_mem_filter he
      · exact he
    rcases List.mem_append.mp hmem with h | h
    · exact Or.inl h
    · exact Or.inr (List.mem_singleton.mp h)
  · intro hne
    rw [hid] at hne ⊢
    rw [hcallbacks]
    split_ifs
    · rw [List.mem_filter]
      refine ⟨List.mem_append_right _ (List.mem_singleton.mpr rfl), ?_⟩
      simpa using fun h : self.episode.counter + 1 = self._callback_id => hne h.symm
    · exact List.mem_append_right _ (List.mem_singleton.mpr rfl)
  · intro snapshot
    have htick := RadarCallback.TickOrThrow_no_failure ⟨vehicle.GetId, callback⟩ snapshot
    refine ⟨?_, htick.symm⟩
    unfold Listen.handlerOrThrow Listen.handler
    rw [htick]
  · intro failure snapshot
    cases hthrown :
        (RadarCallback.TickOrThrow failure ⟨vehicle.GetId, callback⟩ snapshot).thrown with
    | none => simp [Listen.handlerOrThrow, hthrown]
    | some t =>
      cases t with
      | stdException what => simp [Listen.handlerOrThrow, hthrown]
      | other tag => simp [Listen.handlerOrThrow, hthrown]

/-- Instance of C6 as amended: on the sample sensor `Listen` registers its handler under
identifier 3. With a user callback that throws a `std::runtime_error` with text "boom" the
handler logs it and returns normally; with a quiet user callback and a `std::runtime_error`
thrown while the first object is handled the handler logs that one and returns normally. -/
theorem LongRangeRadarSensor.Listen_handler_catches_std_exception_witness :
    ((Sample.onVehicle ℝ).Listen (Sample.throwsStd ℝ)).episode.callbacks.map
        (fun e => (e.1, (e.2 (Sample.snapshot ℝ [Sample.object345 ℝ])).propagated,
          (e.2 (Sample.snapshot ℝ [Sample.object345 ℝ])).logged))
      = [(1, none, []), (2, none, []), (3, none, [["LongRangeRadarSensor:", "boom"]])] ∧
    (3, Listen.handler ⟨7, Sample.throwsStd ℝ⟩)
      ∈ ((Sample.onVehicle ℝ).Listen (Sample.throwsStd ℝ)).episode.callbacks ∧
    (Listen.handlerOrThrow (fun _ => none) ⟨7, Sample.throwsStd ℝ⟩
      (Sample.snapshot ℝ [Sample.object345 ℝ])).propagated = none ∧
    (Listen.handlerOrThrow (fun _ => none) ⟨7, Sample.throwsStd ℝ⟩
      (Sample.snapshot ℝ [Sample.object345 ℝ])).logged = [["LongRangeRadarSensor:", "boom"]] ∧
    (Listen.handlerOrThrow Sample.firstObjectFails ⟨7, Sample.quiet ℝ⟩
      (Sample.snapshot ℝ [Sample.object345 ℝ])).propagated = none ∧
    (Listen.handlerOrThrow Sample.firstObjectFails ⟨7, Sample.quiet ℝ⟩
      (Sample.snapshot ℝ [Sample.object345 ℝ])).logged
        = [["LongRangeRadarSensor:", "destroyed actor"]] := by
  have hboom := LongRangeRadarSensor.Listen_handler_catches_std_exception (Sample.onVehicle ℝ)
    (Sample.throwsStd ℝ) ⟨7, true⟩ rfl
  have hquiet := LongRangeRadarSensor.Listen_handler_catches_std_exception (Sample.onVehicle ℝ)
    (Sample.quiet ℝ) ⟨7, true⟩ rfl
  have h1 := (hboom.2.2.2 (fun _ => none) (Sample.snapshot ℝ [Sample.object345 ℝ])).2.1
    "boom" rfl
  have h2 := (hquiet.2.2.2 Sample.firstObjectFails (Sample.snapshot ℝ [Sample.object345 ℝ])).2.1
    "destroyed actor" rfl
  exact ⟨rfl, hboom.2.1 (by decide), h1.1, h1.2, h2.1, h2.2⟩

end client

end carla
